import Mathlib

/-!
Verification development for the `bdpl` Blu-ray BDMV analysis tool.

The definitions below are a shallow embedding of the Python sources:
`bdpl/model.py`, `bdpl/analyze/*.py`, `bdpl/bdmv/reader.py`,
`bdpl/bdmv/mpls.py`, `bdpl/bdmv/clpi.py`, `bdpl/export/json_out.py` and
`bdpl/export/digital_archive.py`.  Python floats are modelled as `ℚ`
(every concrete input used below keeps the float arithmetic exact),
Python ints as `ℤ`/`ℕ`, raised exceptions as `Except PyErr`.
-/

/-- Python exception kinds that the embedded code can raise. -/
inductive PyErr where
  | zeroDivision
  | typeErr (msg : String)
  | attrErr (msg : String)
  | valueErr (msg : String)
  deriving DecidableEq, Repr

/-! Rational arithmetic.  `Rat.add`, `Rat.sub`, `Rat.mul`, `Rat.inv` are
`@[irreducible]` in Batteries, which blocks kernel evaluation inside
`decide`; the wrappers below compute the same rationals through the
reducible `mkRat` / `Rat.divInt` normalizing constructors. -/

/-- `a + b` on `ℚ`, kernel-reducible. -/
def qadd (a b : ℚ) : ℚ :=
  mkRat (a.num * b.den + b.num * a.den) (a.den * b.den)

/-- `a - b` on `ℚ`, kernel-reducible. -/
def qsub (a b : ℚ) : ℚ :=
  mkRat (a.num * b.den - b.num * a.den) (a.den * b.den)

/-- `a * b` on `ℚ`, kernel-reducible. -/
def qmul (a b : ℚ) : ℚ :=
  mkRat (a.num * b.num) (a.den * b.den)

/-- `a / b` on `ℚ` (0 when `b = 0`), kernel-reducible. -/
def qdiv (a b : ℚ) : ℚ :=
  Rat.divInt (a.num * b.den) (a.den * b.num)

/-- `-a` on `ℚ`, kernel-reducible. -/
def qneg (a : ℚ) : ℚ :=
  mkRat (-a.num) a.den

/-- `abs` on `ℚ`, kernel-reducible. -/
def qabs (a : ℚ) : ℚ :=
  if a.num < 0 then qneg a else a

/-- Python `max` of two rationals. -/
def qmax (a b : ℚ) : ℚ :=
  if a < b then b else a

/-- Embed an integer into `ℚ`. -/
def intToQ (n : ℤ) : ℚ :=
  mkRat n 1

/-- Embed a natural into `ℚ`. -/
def natToQ (n : ℕ) : ℚ :=
  mkRat n 1

/-- Floor of a rational as an integer (`math.floor`); `Int.fdiv` is floor
division. -/
def qfloor (q : ℚ) : ℤ :=
  q.num.fdiv q.den

/-- Python 3 `round()` to an integer: round half to even. -/
def pyRound (q : ℚ) : ℤ :=
  let f := qfloor q
  let r := qsub q (intToQ f)
  if r < mkRat 1 2 then f
  else if mkRat 1 2 < r then f + 1
  else if f % 2 = 0 then f else f + 1

/-- `bdpl.model.ticks_to_ms`: convert 45 kHz ticks to milliseconds.
The argument is `ℤ` because the pipeline also applies it to differences of
tick counts. -/
def ticks_to_ms (ticks : ℤ) : ℚ :=
  Rat.divInt ticks 45

/-- `bdpl.model.StreamInfo`.  The `extra` attribute bag only ever holds
integer values in the source. -/
structure StreamInfo where
  pid : ℕ
  stream_type : ℕ
  codec : String
  lang : String := ""
  extra : List (String × ℤ) := []
  deriving DecidableEq, Repr

/-- Segment keys appearing in the source: quantized `PlayItem.segment_key`
tuples, the integer-rounded keys built by chapter splitting, and the
synthetic `(SCENE, playlist, idx)` keys of scene references. -/
inductive SKey where
  | seg (clip : String) (q_in q_out : ℚ)
  | chap (clip : String) (r_in r_out : ℤ)
  | scene (playlist : String) (idx : ℕ)
  deriving DecidableEq, Repr

/-- `bdpl.model.PlayItem` (the mutable `label` is carried functionally). -/
structure PlayItem where
  clip_id : String
  m2ts : String
  in_time : ℕ
  out_time : ℕ
  connection_condition : ℕ
  streams : List StreamInfo
  label : String := "UNKNOWN"
  deriving DecidableEq, Repr

/-- `PlayItem.duration_ticks`. -/
def PlayItem.duration_ticks (pi : PlayItem) : ℤ :=
  (pi.out_time : ℤ) - (pi.in_time : ℤ)

/-- `PlayItem.duration_ms`. -/
def PlayItem.duration_ms (pi : PlayItem) : ℚ :=
  ticks_to_ms pi.duration_ticks

/-- `PlayItem.duration_seconds`. -/
def PlayItem.duration_seconds (pi : PlayItem) : ℚ :=
  qdiv pi.duration_ms (natToQ 1000)

/-- Value computed by `PlayItem.segment_key` for a non-zero quantization
grid (`round(ms / quant) * quant` on each timestamp). -/
def PlayItem.segment_key_v (pi : PlayItem) (quant_ms : ℚ) : SKey :=
  let in_ms := ticks_to_ms pi.in_time
  let out_ms := ticks_to_ms pi.out_time
  SKey.seg pi.clip_id (qmul (intToQ (pyRound (qdiv in_ms quant_ms))) quant_ms)
    (qmul (intToQ (pyRound (qdiv out_ms quant_ms))) quant_ms)

/-- `bdpl.model.PlayItem.segment_key`.  Python divides by `quant_ms`, so a
zero grid raises `ZeroDivisionError`; every pipeline call site uses a
non-zero grid (250 or 5000) and therefore hits the `ok` branch. -/
def PlayItem.segment_key (pi : PlayItem) (quant_ms : ℚ) : Except PyErr SKey :=
  if quant_ms = 0 then .error .zeroDivision
  else .ok (pi.segment_key_v quant_ms)

/-- `bdpl.model.ChapterMark`. -/
structure ChapterMark where
  mark_id : ℕ
  mark_type : ℕ
  play_item_ref : ℕ
  timestamp : ℕ
  entry_es_pid : ℕ := 0
  duration_ms : ℚ := 0
  deriving DecidableEq, Repr

/-- `bdpl.model.Playlist`. -/
structure Playlist where
  mpls : String
  play_items : List PlayItem
  chapters : List ChapterMark := []
  is_multi_angle : Bool := false
  deriving DecidableEq, Repr

/-- `Playlist.duration_ms`: sum of play-item durations. -/
def Playlist.duration_ms (pl : Playlist) : ℚ :=
  (pl.play_items.map PlayItem.duration_ms).foldl qadd 0

/-- `Playlist.duration_seconds`. -/
def Playlist.duration_seconds (pl : Playlist) : ℚ :=
  qdiv pl.duration_ms (natToQ 1000)

/-- `Playlist.clip_ids`. -/
def Playlist.clip_ids (pl : Playlist) : List String :=
  pl.play_items.map PlayItem.clip_id

/-- `bdpl.model.Playlist.signature_exact`: Python evaluates
`tuple(pi.segment_key(quant_ms=0) for pi in self.play_items)`, forcing
`segment_key` with a zero grid on every play item. -/
def Playlist.signature_exact (pl : Playlist) : Except PyErr (List SKey) :=
  pl.play_items.mapM (fun pi => pi.segment_key 0)

/-- `bdpl.model.Playlist.signature_loose` (default grid 250 ms); the grid
is non-zero at every call site, matching `segment_key`'s `ok` branch. -/
def Playlist.signature_loose (pl : Playlist) (quant_ms : ℚ := 250) : List SKey :=
  pl.play_items.map (fun pi => pi.segment_key_v quant_ms)

/-- `bdpl.model.ClipInfo`. -/
structure ClipInfo where
  clip_id : String
  streams : List StreamInfo
  duration_ticks : ℕ := 0
  deriving DecidableEq, Repr

/-- `bdpl.model.SegmentRef`. -/
structure SegmentRef where
  key : SKey
  clip_id : String
  in_ms : ℚ
  out_ms : ℚ
  duration_ms : ℚ
  label : String := "UNKNOWN"
  deriving DecidableEq, Repr

/-- `bdpl.model.Episode` as declared in `model.py`: a slots dataclass with
exactly the fields below (in particular there is no `scenes` field). -/
structure Episode where
  episode : ℕ
  playlist : String
  duration_ms : ℚ
  confidence : ℚ
  segments : List SegmentRef
  alternates : List String := []
  deriving DecidableEq, Repr

/-- The slot names of the `Episode` dataclass, as in `model.py`. -/
def episodeSlots : List String :=
  ["episode", "playlist", "duration_ms", "confidence", "segments", "alternates"]

/-- `bdpl.model.SpecialFeature` as declared in `model.py`: a slots
dataclass with exactly the fields below (no `menu_visible` field). -/
structure SpecialFeature where
  index : ℕ
  playlist : String
  duration_ms : ℚ
  category : String
  chapter_start : Option ℕ := none
  deriving DecidableEq, Repr

/-- The slot names of the `SpecialFeature` dataclass, as in `model.py`. -/
def specialFeatureSlots : List String :=
  ["index", "playlist", "duration_ms", "category", "chapter_start"]

/-- Calling a slots dataclass with a keyword argument, or assigning an
attribute on one: Python raises `TypeError` (unexpected keyword) resp.
`AttributeError` unless the name is a declared field. -/
def slotsKwarg (slots : List String) (name : String) : Except PyErr Unit :=
  if name ∈ slots then .ok ()
  else .error (.typeErr ("unexpected keyword argument " ++ name))

/-- Attribute assignment on a slots dataclass instance. -/
def slotsSetattr (slots : List String) (name : String) : Except PyErr Unit :=
  if name ∈ slots then .ok ()
  else .error (.attrErr ("object has no attribute " ++ name))

/-- Split a character list at a separator character. -/
def splitChar (sep : Char) : List Char → List (List Char)
  | [] => [[]]
  | c :: rest =>
    match splitChar sep rest with
    | [] => [[c]]
    | h :: t => if c = sep then [] :: h :: t else (c :: h) :: t

/-- Python `str.split(sep)` for a one-character separator (kernel-reducible
replacement for `String.splitOn`, which is defined by well-founded
recursion). -/
def strSplitOnChar (s : String) (sep : Char) : List String :=
  (splitChar sep s.data).map String.mk

/-- Lexicographic comparison of character lists by code point. -/
def charListLe : List Char → List Char → Bool
  | [], _ => true
  | _ :: _, [] => false
  | a :: as, b :: bs =>
    if a.toNat < b.toNat then true
    else if b.toNat < a.toNat then false
    else charListLe as bs

/-- Python string `<=` (code-point lexicographic), kernel-reducible. -/
def strLe (a b : String) : Bool :=
  charListLe a.data b.data

/-- ASCII lower-casing (Python `str.lower` restricted to the ASCII image
format names the source passes through it). -/
def strToLower (s : String) : String :=
  String.mk (s.data.map (fun c =>
    if 65 ≤ c.toNat ∧ c.toNat ≤ 90 then Char.ofNat (c.toNat + 32) else c))

/-- Order-preserving de-duplication keeping first occurrences (the
`seen`-set loops of the source). -/
def dedupKeepFirst (l : List String) : List String :=
  l.foldl (fun acc x => if x ∈ acc then acc else acc ++ [x]) []

/-- Stable insertion of `x` after every already-placed element `y` with
`le y x`. -/
def insSorted {α : Type} (le : α → α → Bool) (x : α) : List α → List α
  | [] => [x]
  | y :: ys => if le y x then y :: insSorted le x ys else x :: y :: ys

/-- Python's stable `sorted`/`list.sort`, modelled as stable insertion
sort (equal keys keep their input order). -/
def pySorted {α : Type} (le : α → α → Bool) (l : List α) : List α :=
  l.foldl (fun acc x => insSorted le x acc) []

/-! ### Association-list helpers (Python `dict` / `defaultdict`) -/

/-- Python `dict` lookup (`m.get(k)`); keys are unique in the source. -/
def dictGet? {α : Type} (m : List (String × α)) (k : String) : Option α :=
  (m.find? (fun p => p.1 = k)).map (fun p => p.2)

/-- Python `dict` assignment `m[k] = v`, preserving insertion order. -/
def dictSet {α : Type} (m : List (String × α)) (k : String) (v : α) :
    List (String × α) :=
  if (m.find? (fun p => p.1 = k)).isSome then
    m.map (fun p => if p.1 = k then (k, v) else p)
  else m ++ [(k, v)]

/-- Lookup in a segment-frequency `dict` with a default. -/
def keyGetD (m : List (SKey × ℕ)) (k : SKey) (d : ℕ) : ℕ :=
  match m.find? (fun p => p.1 = k) with
  | some p => p.2
  | none => d

/-- `defaultdict(int)`-style increment of a segment-key counter, preserving
insertion order. -/
def keyBump (m : List (SKey × ℕ)) (k : SKey) : List (SKey × ℕ) :=
  if (m.find? (fun p => p.1 = k)).isSome then
    m.map (fun p => if p.1 = k then (p.1, p.2 + 1) else p)
  else m ++ [(k, 1)]

/-! ### `bdpl/analyze/signatures.py` -/

/-- `find_duplicates` groups playlists by loose signature in first-occurrence
order (a `defaultdict(list)`); this helper builds the groups. -/
def sigGroups (playlists : List Playlist) (quant_ms : ℚ) :
    List (List SKey × List Playlist) :=
  playlists.foldl
    (fun acc pl =>
      let sig := pl.signature_loose quant_ms
      if (acc.find? (fun g => g.1 = sig)).isSome then
        acc.map (fun g => if g.1 = sig then (g.1, g.2 ++ [pl]) else g)
      else acc ++ [(sig, [pl])])
    []

/-- `bdpl.analyze.signatures.find_duplicates`: clusters of two or more
playlists sharing the same loose signature. -/
def find_duplicates (playlists : List Playlist) (quant_ms : ℚ := 250) :
    List (List Playlist) :=
  (sigGroups playlists quant_ms).filterMap
    (fun g => if g.2.length ≥ 2 then some g.2 else none)

/-! ### `bdpl/analyze/clustering.py` -/

/-- The `_score` closure of `pick_representative`. -/
def repScore (clips : List (String × ClipInfo)) (pl : Playlist) : ℕ × ℕ × ℤ :=
  let stream_count :=
    match pl.play_items with
    | [] => 0
    | pi :: _ =>
      match dictGet? clips pi.clip_id with
      | some c => if c.streams.length ≠ 0 then c.streams.length else pi.streams.length
      | none => pi.streams.length
  (stream_count, pl.chapters.length, -(pl.mpls.length : ℤ))

/-- Strict lexicographic greater-than on score triples (Python tuple `>`). -/
def scoreGt (a b : ℕ × ℕ × ℤ) : Bool :=
  decide (b.1 < a.1) ||
    (decide (a.1 = b.1) &&
      (decide (b.2.1 < a.2.1) ||
        (decide (a.2.1 = b.2.1) && decide (b.2.2 < a.2.2))))

/-- `bdpl.analyze.clustering.pick_representative`: Python `max(cluster,
key=_score)` keeps the first element attaining the maximal score.  The
source never calls it on an empty cluster (`find_duplicates` returns
clusters of length ≥ 2); the `[]` branch is a placeholder for Python's
`ValueError`. -/
def pick_representative (cluster : List Playlist)
    (clips : List (String × ClipInfo)) : Playlist :=
  match cluster with
  | [] => { mpls := "", play_items := [] }
  | c :: rest =>
    rest.foldl
      (fun best x => if scoreGt (repScore clips x) (repScore clips best) then x else best)
      c

/-! ### Duplicate-clustering step of `scan_disc` (analyze/__init__.py
lines 816-844): pick representatives into the deduplicated working set. -/

/-- One iteration of the `for pl in playlists` dedup loop in `scan_disc`.
State: (`seen_sigs`, `unique_playlists`). -/
def dedupStep (dup_groups : List (List Playlist))
    (clips : List (String × ClipInfo))
    (st : List (List SKey) × List Playlist) (pl : Playlist) :
    List (List SKey) × List Playlist :=
  let sig := pl.signature_loose 250
  if sig ∈ st.1 then
    match dup_groups.find? (fun g => pl ∈ g) with
    | some g =>
      let rep := pick_representative g clips
      if rep ∈ st.2 then st else (st.1, st.2 ++ [rep])
    | none => st
  else (st.1 ++ [sig], st.2 ++ [pl])

/-- The deduplicated working set built by `scan_disc` before the later
pipeline stages run. -/
def dedupWorkingSet (playlists : List Playlist)
    (clips : List (String × ClipInfo)) : List Playlist :=
  (playlists.foldl (dedupStep (find_duplicates playlists 250) clips) ([], [])).2

/-! ### `bdpl/analyze/segment_graph.py` -/

/-- `build_segment_frequency`: how often each loose segment key appears
across all playlists. -/
def build_segment_frequency (playlists : List Playlist) : List (SKey × ℕ) :=
  playlists.foldl
    (fun freq pl =>
      pl.play_items.foldl (fun f pi => keyBump f (pi.segment_key_v 250)) freq)
    []

/-- `detect_play_all`: playlists whose segments are a superset or
concatenation of other playlists' segments. -/
def detect_play_all (playlists : List Playlist) : List Playlist :=
  if playlists.length < 2 then []
  else
    let pl_segments := fun (pl : Playlist) =>
      pl.play_items.map (fun pi => pi.segment_key_v 250)
    let single_segments :=
      playlists.filterMap (fun pl =>
        match pl.play_items with
        | [pi] => some (pi.segment_key_v 250)
        | _ => none)
    playlists.filter (fun pl =>
      if pl.play_items.length < 2 then false
      else
        let my_keys := pl_segments pl
        let is_superset := playlists.any (fun other =>
          decide (other.mpls ≠ pl.mpls) && decide (other.play_items.length ≠ 0) &&
            decide (pl_segments other ≠ []) &&
            (pl_segments other).all (fun k => k ∈ my_keys))
        let contained_singles :=
          (pl_segments pl).countP (fun k => k ∈ single_segments)
        let long_items :=
          pl.play_items.countP (fun pi => 600 < pi.duration_seconds)
        is_superset || decide (2 ≤ contained_singles) || decide (2 ≤ long_items))

/-! ### `bdpl/analyze/classify.py` -/

/-- `is_digital_archive_playlist`: many ultra-short items shaped like an
image archive. -/
def is_digital_archive_playlist (pl : Playlist) : Bool :=
  let item_count := pl.play_items.length
  if item_count < 20 then false
  else
    let total_s := pl.duration_seconds
    if 300 < total_s then false
    else
      let avg_item_s := qdiv total_s (natToQ item_count)
      if mkRat 1 2 < avg_item_s then false
      else
        let unique_clip_count := (pl.play_items.map PlayItem.clip_id).dedup.length
        decide (mkRat 4 5 ≤ qdiv (natToQ unique_clip_count) (natToQ item_count))

/-- The position-restricted segment counters used by `label_segments`:
(first, last, second-to-last) occurrence counts over episode-length
playlists (duration ≥ 10 min). -/
def positionCounts (playlists : List Playlist) :
    List (SKey × ℕ) × List (SKey × ℕ) × List (SKey × ℕ) :=
  let ep_playlists := playlists.filter (fun pl => 600 ≤ pl.duration_seconds)
  ep_playlists.foldl
    (fun acc pl =>
      match pl.play_items.head?, pl.play_items.getLast? with
      | some pi, some last_pi =>
        let first := keyBump acc.1 (pi.segment_key_v 250)
        let last := keyBump acc.2.1 (last_pi.segment_key_v 250)
        let second_last :=
          if 2 ≤ pl.play_items.length then
            match pl.play_items.dropLast.getLast? with
            | some sl => keyBump acc.2.2 (sl.segment_key_v 250)
            | none => acc.2.2
          else acc.2.2
        (first, last, second_last)
      | _, _ => acc)
    ([], [], [])

/-- The per-item label decision inside `label_segments` (first match wins). -/
def labelFor (segment_freq : List (SKey × ℕ))
    (firstCnt lastCnt secondLastCnt : List (SKey × ℕ))
    (itemCount idx : ℕ) (pi : PlayItem) : String :=
  let key := pi.segment_key_v 250
  let dur_s := pi.duration_seconds
  let freq := keyGetD segment_freq key 1
  if dur_s < 30 ∧ 2 ≤ freq then "LEGAL"
  else if 60 ≤ dur_s ∧ dur_s ≤ 135 ∧ 2 ≤ keyGetD firstCnt key 0 then "OP"
  else if 60 ≤ dur_s ∧ dur_s ≤ 135 ∧
      (2 ≤ keyGetD lastCnt key 0 ∨ 2 ≤ keyGetD secondLastCnt key 0) then "ED"
  else if idx = itemCount - 1 ∧ dur_s < 60 then "PREVIEW"
  else if freq = 1 ∧ 300 < dur_s then "BODY"
  else if 300 < dur_s then "BODY"
  else "UNKNOWN"

/-- `label_segments`: Python mutates `PlayItem.label` in place; the
embedding returns the relabeled playlists. -/
def label_segments (playlists : List Playlist)
    (segment_freq : List (SKey × ℕ)) : List Playlist :=
  let cnts := positionCounts playlists
  playlists.map (fun pl =>
    { pl with
      play_items := (pl.play_items.enum).map (fun p =>
        { p.2 with
          label := labelFor segment_freq cnts.1 cnts.2.1 cnts.2.2
            pl.play_items.length p.1 p.2 }) })

/-- `classify_playlists`: one category per playlist, first matching rule
wins; returns the classification dict in playlist order. -/
def classify_playlists (playlists : List Playlist)
    (play_all : List Playlist) : List (String × String) :=
  let play_all_names := play_all.map Playlist.mpls
  playlists.map (fun pl =>
    let dur_s := pl.duration_seconds
    let cat :=
      if pl.mpls ∈ play_all_names then "play_all"
      else if is_digital_archive_playlist pl then "digital_archive"
      else if dur_s < 10 then "bumper"
      else if pl.play_items.length = 1 ∧ 60 ≤ dur_s ∧ dur_s ≤ 135 then
        if dur_s < 90 then "creditless_op" else "creditless_ed"
      else if 10 ≤ dur_s ∧ dur_s < 180 then "extra"
      else if 600 ≤ dur_s then
        if pl.play_items.any (fun pi => pi.label = "BODY") then "episode" else "extra"
      else "extra"
    (pl.mpls, cat))

/-! ### `bdpl/analyze/ordering.py` -/

/-- `_make_segment_ref`: build a `SegmentRef` from a play item (default
250 ms segment key). -/
def make_segment_ref (pi : PlayItem) : SegmentRef :=
  { key := pi.segment_key_v 250
    clip_id := pi.clip_id
    in_ms := ticks_to_ms pi.in_time
    out_ms := ticks_to_ms pi.out_time
    duration_ms := pi.duration_ms
    label := pi.label }

/-- `_body_signature`: normalized signature of BODY segments (5000 ms
grid), falling back to the loose signature. -/
def body_signature (pl : Playlist) : List SKey :=
  let body_segments :=
    (pl.play_items.filter (fun pi => pi.label = "BODY")).map
      (fun pi => pi.segment_key_v 5000)
  if body_segments ≠ [] then body_segments else pl.signature_loose 250

/-- `_collapse_body_equivalent_variants`: keep, per body signature, the
longest-duration playlist (dict insertion order preserved). -/
def collapse_body_equivalent_variants (playlists : List Playlist) :
    List Playlist :=
  (playlists.foldl
    (fun by_sig pl =>
      let sig := body_signature pl
      match by_sig.find? (fun p => p.1 = sig) with
      | some cur =>
        if cur.2.duration_ms < pl.duration_ms then
          by_sig.map (fun p => if p.1 = sig then (sig, pl) else p)
        else by_sig
      | none => by_sig ++ [(sig, pl)])
    []).map (fun p => p.2)

/-- The `_sort_key` closure of `_episodes_from_individual`: first BODY
clip id, else first clip id, else the empty string. -/
def individualSortKey (pl : Playlist) : String :=
  match pl.play_items.find? (fun pi => pi.label = "BODY") with
  | some pi => pi.clip_id
  | none =>
    match pl.play_items.head? with
    | some pi => pi.clip_id
    | none => ""

/-- `_episodes_from_individual` (Strategy A, confidence 0.9): collapse
body-equivalent variants, sort by BODY clip id, emit one episode per
playlist. -/
def episodes_from_individual (episode_playlists : List Playlist) :
    List Episode :=
  let collapsed := collapse_body_equivalent_variants episode_playlists
  let sorted_pls :=
    pySorted (fun a b => strLe (individualSortKey a) (individualSortKey b)) collapsed
  (sorted_pls.enum).map (fun p =>
    { episode := p.1 + 1
      playlist := p.2.mpls
      duration_ms := p.2.duration_ms
      confidence := mkRat 9 10
      segments := p.2.play_items.map make_segment_ref })

/-- `_episodes_from_play_all` (Strategy B, confidence 0.7): one episode
per play item of at least 300 s, in file order. -/
def episodes_from_play_all (play_all : Playlist) : List Episode :=
  play_all.play_items.foldl
    (fun eps pi =>
      if 300 ≤ pi.duration_seconds then
        eps ++ [{ episode := eps.length + 1
                  playlist := play_all.mpls
                  duration_ms := pi.duration_ms
                  confidence := mkRat 7 10
                  segments := [make_segment_ref pi] }]
      else eps)
    []

/-- State of the greedy chapter walk in `_episodes_from_chapters`:
`(episodes, ep_start_ms, ep_start_idx)`. -/
def ChapState : Type := List Episode × ℚ × ℕ

/-- One iteration (chapter index `i ≥ 1`) of the greedy walk in
`_episodes_from_chapters`.  `overshoot` is `float("inf")` when no next
chapter exists, so `undershoot <= overshoot` is then true. -/
def chapSplitStep (mpls clip : String) (target min_ep max_ep : ℚ)
    (ch_times : List ℚ) (st : ChapState) (i : ℕ) : ChapState :=
  let t_i := ch_times.getD i 0
  let block := qsub t_i st.2.1
  if min_ep ≤ block then
    let undershoot := qabs (qsub block target)
    let split_here :=
      (if i + 1 < ch_times.length then
        decide (undershoot ≤ qabs (qsub (qsub (ch_times.getD (i+1) 0) st.2.1) target))
      else true) || decide (max_ep < block)
    if split_here then
      let seg : SegmentRef :=
        { key := SKey.chap clip (pyRound st.2.1) (pyRound t_i)
          clip_id := clip
          in_ms := st.2.1
          out_ms := t_i
          duration_ms := block
          label := "BODY" }
      (st.1 ++ [{ episode := st.1.length + 1
                  playlist := mpls
                  duration_ms := block
                  confidence := mkRat 3 5
                  segments := [seg] }],
       t_i, i)
    else st
  else st

/-- The walk/trailing/acceptance tail of `_episodes_from_chapters`, after
the estimate and the tolerance window are fixed: greedy walk over the
chapter indices, optional trailing episode, and the count-acceptance
check. -/
def chapDecompose (mpls clip : String)
    (target_dur_ms min_ep_ms max_ep_ms : ℚ) (ch_times : List ℚ)
    (out_ms : ℚ) (est_count : ℤ) : List Episode :=
  let st :=
    (List.range' 1 (ch_times.length - 1)).foldl
      (chapSplitStep mpls clip target_dur_ms min_ep_ms max_ep_ms ch_times)
      ([], ch_times.getD 0 0, 0)
  let remaining_ms := qsub out_ms st.2.1
  let episodes :=
    if min_ep_ms ≤ remaining_ms ∧ st.2.2 < ch_times.length - 1 then
      st.1 ++
        [{ episode := st.1.length + 1
           playlist := mpls
           duration_ms := remaining_ms
           confidence := mkRat 3 5
           segments :=
             [{ key := SKey.chap clip (pyRound st.2.1) (pyRound out_ms)
                clip_id := clip
                in_ms := st.2.1
                out_ms := out_ms
                duration_ms := remaining_ms
                label := "BODY" }] }]
    else st.1
  if ((episodes.length : ℤ) - est_count).natAbs ≤ 1 ∧ 2 ≤ episodes.length then
    episodes
  else []

/-- `_episodes_from_chapters` (Strategy C, confidence 0.6): split one long
playlist into episodes using chapter marks.  Python raises `IndexError`
on `play_items[0]` when a chaptered playlist has no play items; that path
is the `error` branch. -/
def episodes_from_chapters (pl : Playlist) : Except PyErr (List Episode) :=
  if pl.chapters = [] ∨ pl.chapters.length < 4 then .ok []
  else
    match pl.play_items.head? with
    | none => .error (.valueErr "IndexError: list index out of range")
    | some main_item =>
      let ch_times := pl.chapters.map (fun ch => ticks_to_ms ch.timestamp)
      let total_dur_ms := pl.duration_ms
      let est_count : ℤ := max 1 (pyRound (qdiv total_dur_ms (natToQ (25 * 60 * 1000))))
      if est_count ≤ 1 then .ok []
      else
        let target_dur_ms := qdiv total_dur_ms (intToQ est_count)
        .ok (chapDecompose pl.mpls main_item.clip_id target_dur_ms
          (qmul target_dur_ms (mkRat 3 5)) (qmul target_dur_ms (mkRat 7 5))
          ch_times (ticks_to_ms main_item.out_time) est_count)

/-- `order_episodes`: choose between individual playlists (Strategy A),
Play-All decomposition (Strategy B) and chapter splitting (Strategy C). -/
def order_episodes (playlists : List Playlist)
    (play_all_playlists : List Playlist)
    (classifications : List (String × String)) :
    Except PyErr (List Episode) := do
  let play_all_names := play_all_playlists.map Playlist.mpls
  let individual_eps :=
    if classifications ≠ [] ∧ classifications.any (fun p => p.2 = "episode") then
      playlists.filter (fun pl =>
        pl.mpls ∉ play_all_names ∧ dictGet? classifications pl.mpls = some "episode")
    else
      playlists.filter (fun pl =>
        pl.mpls ∉ play_all_names ∧ 600 ≤ pl.duration_seconds)
  let pa_episodes ←
    match play_all_playlists with
    | [] => pure []
    | p0 :: rest => do
      let best_pa :=
        rest.foldl (fun best x =>
          if best.duration_ms < x.duration_ms then x else best) p0
      let pa0 := episodes_from_play_all best_pa
      if pa0.length ≤ 1 ∧ best_pa.chapters ≠ [] then do
        let ch_episodes ← episodes_from_chapters best_pa
        if pa0.length < ch_episodes.length then pure ch_episodes else pure pa0
      else pure pa0
  if individual_eps ≠ [] ∧ pa_episodes ≠ [] then
    let avg_indiv :=
      qdiv ((individual_eps.map Playlist.duration_ms).foldl qadd 0)
        (natToQ individual_eps.length)
    let avg_pa :=
      qdiv ((pa_episodes.map Episode.duration_ms).foldl qadd 0)
        (natToQ pa_episodes.length)
    if individual_eps.length < pa_episodes.length ∧ qmul avg_indiv (mkRat 3 2) < avg_pa then
      pure pa_episodes
    else pure (episodes_from_individual individual_eps)
  else if individual_eps ≠ [] then
    match individual_eps with
    | [candidate] => do
      let ch_episodes ← episodes_from_chapters candidate
      if 2 ≤ ch_episodes.length then pure ch_episodes
      else pure (episodes_from_individual individual_eps)
    | _ => pure (episodes_from_individual individual_eps)
  else if pa_episodes ≠ [] then
    pure pa_episodes
  else
    pure []

/-! ### JSON values, warnings and the analysis record -/

/-- JSON-serializable Python values (dicts keep insertion order, as Python
3.7+ guarantees). -/
inductive JValue where
  | jnull : JValue
  | jbool : Bool → JValue
  | jnum : ℚ → JValue
  | jstr : String → JValue
  | jarr : List JValue → JValue
  | jobj : List (String × JValue) → JValue

/-- `bdpl.model.Warning` (the `context` bag holds JSON-shaped values). -/
structure DiscWarning where
  code : String
  message : String
  context : List (String × JValue) := []

/-- `bdpl.model.DiscAnalysis`.  `clips` is the dict keyed by clip id;
`analysis` is the open accumulator dict. -/
structure DiscAnalysis where
  path : String
  playlists : List Playlist
  clips : List (String × ClipInfo)
  episodes : List Episode
  warnings : List DiscWarning
  special_features : List SpecialFeature := []
  analysis : List (String × JValue) := []

/-! ### Special features and scenes (`bdpl/analyze/__init__.py`),
specialized to a disc with no `index.bdmv`, no `MovieObject.bdmv` and no
IG streams, so `_parse_disc_hints` returns the empty dict.  With empty
hints `_title_hint_non_episode_entries` returns `[]` and
`_scene_mark_indices_from_ig` returns the empty map, which is how the
definitions below are specialized. -/

/-- Calling the `SpecialFeature` dataclass with the given keyword names:
Python raises `TypeError` on any name that is not a declared field. -/
def specialFeatureNew (kwargs : List String) (sf : SpecialFeature) :
    Except PyErr SpecialFeature := do
  kwargs.forM (slotsKwarg specialFeatureSlots)
  pure sf

/-- `_is_likely_menu_visible_special`: fallback visibility heuristic. -/
def is_likely_menu_visible_special (f : SpecialFeature) : Bool :=
  match ((strSplitOnChar f.playlist '.').headD "").toNat? with
  | none => false
  | some playlist_num =>
    if 1000 ≤ playlist_num then false
    else decide (15000 ≤ f.duration_ms)

/-- `_apply_menu_visibility_from_hints` with empty hints: the inferred
visible-button count is 0, so the fallback loop assigns
`feature.menu_visible` on every feature — an attribute the slots dataclass
does not declare, so the first assignment raises `AttributeError` (the
computed `_is_likely_menu_visible_special` value is discarded). -/
def apply_menu_visibility_nohints (features : List SpecialFeature) :
    Except PyErr (List SpecialFeature) :=
  if features = [] then .ok features
  else do
    features.forM (fun _ => slotsSetattr specialFeatureSlots "menu_visible")
    pure features

/-- The `pl_by_name` dicts built by comprehension in the source: a later
playlist with the same name overwrites an earlier one. -/
def plByName (playlists : List Playlist) (name : String) : Option Playlist :=
  playlists.reverse.find? (fun pl => pl.mpls = name)

/-- `_special_features_from_classifications` with empty hints: no
title-hint entries, so enumerate non-episode categories over the sorted
classification dict.  Each appended feature is constructed with a
`menu_visible=True` keyword argument. -/
def special_features_from_classifications (classifications : List (String × String))
    (playlists : List Playlist) (episodes : List Episode) :
    Except PyErr (List SpecialFeature) := do
  let ep_playlists := episodes.map Episode.playlist
  let non_episode_cats := ["creditless_op", "creditless_ed", "extra", "digital_archive"]
  let sorted_cls := pySorted (fun a b => strLe a.1 b.1) classifications
  let st ← sorted_cls.foldlM
    (fun (st : List SpecialFeature × ℕ) entry => do
      if entry.2 ∉ non_episode_cats ∨ entry.1 ∈ ep_playlists then
        pure st
      else
        match plByName playlists entry.1 with
        | none => pure st
        | some pl => do
          let sf ← specialFeatureNew
            ["index", "playlist", "duration_ms", "category", "menu_visible"]
            { index := st.2
              playlist := entry.1
              duration_ms := pl.duration_ms
              category := entry.2 }
          pure (st.1 ++ [sf], st.2 + 1))
    ([], 1)
  apply_menu_visibility_nohints st.1

/-- `_detect_special_features` with empty hints falls straight back to
classification-only detection. -/
def detect_special_features_nohints (classifications : List (String × String))
    (playlists : List Playlist) (episodes : List Episode) :
    Except PyErr (List SpecialFeature) :=
  special_features_from_classifications classifications playlists episodes

/-- `_downsample_scene_starts`: keep at most `target_count` evenly spaced
anchors (`round(i * last / (target_count - 1))`, a Python float round). -/
def downsample_scene_starts (starts_ms : List ℚ) (target_count : ℕ := 4) :
    List ℚ :=
  if starts_ms.length ≤ target_count then starts_ms
  else if target_count ≤ 1 then [starts_ms.getD 0 0]
  else
    let last := starts_ms.length - 1
    let indices :=
      pySorted (fun a b => decide (a ≤ b))
        (((List.range target_count).map
          (fun i => pyRound (qdiv (natToQ (i * last)) (natToQ (target_count - 1))))).dedup)
    indices.map (fun i => starts_ms.getD i.toNat 0)

/-- `_sanitize_scene_starts` (defaults: 4 anchors, 120 s tail). -/
def sanitize_scene_starts (starts_ms : List ℚ) (duration_ms : ℚ) : List ℚ :=
  let starts :=
    pySorted (fun a b => decide (a ≤ b))
      ((starts_ms.filter (fun s => 0 ≤ s ∧ s < duration_ms)).dedup)
  if starts = [] then []
  else
    let trimmed := starts.filter (fun s => s ≤ qsub duration_ms (natToQ 120000))
    if 4 ≤ trimmed.length then trimmed else starts

/-- The scene `SegmentRef` list built at the end of
`_build_episode_scenes`'s per-episode loop. -/
def sceneSegments (ep : Episode) (clip_id : String) (starts : List ℚ) :
    List SegmentRef :=
  (starts.enum).filterMap (fun p =>
    let end_ms := if p.1 + 1 < starts.length then starts.getD (p.1 + 1) 0
      else ep.duration_ms
    if end_ms ≤ p.2 then none
    else some
      { key := SKey.scene ep.playlist (p.1 + 1)
        clip_id := clip_id
        in_ms := p.2
        out_ms := end_ms
        duration_ms := qsub end_ms p.2
        label := "SCENE" })

/-- `_build_episode_scenes` with empty hints: no IG-derived starts, so each
episode falls back to its playlist's chapter anchors; the loop ends with
`episode.scenes = scene_segments`, an assignment to an attribute the
`Episode` slots dataclass does not declare, raising `AttributeError`. -/
def build_episode_scenes_nohints (episodes : List Episode)
    (playlists : List Playlist) : Except PyErr Unit :=
  if episodes = [] then .ok ()
  else
    episodes.forM (fun ep =>
      match plByName playlists ep.playlist with
      | none => .ok ()
      | some playlist =>
        match playlist.play_items.head? with
        | none => .ok ()
        | some first_pi =>
          let base_in := (first_pi.in_time : ℤ)
          let starts0 :=
            pySorted (fun a b => decide (a ≤ b))
              ((playlist.chapters.filterMap (fun ch =>
                let local_ms := ticks_to_ms ((ch.timestamp : ℤ) - base_in)
                if 0 ≤ local_ms ∧ local_ms < ep.duration_ms then some local_ms
                else none)).dedup)
          let starts1 := sanitize_scene_starts starts0 ep.duration_ms
          let starts2 := downsample_scene_starts starts1 4
          let starts3 := if starts2 = [] then [(0 : ℚ)] else starts2
          let starts4 :=
            if 250 < starts3.getD 0 0 then
              downsample_scene_starts
                (pySorted (fun a b => decide (a ≤ b)) (((0 : ℚ) :: starts3).dedup)) 4
            else starts3
          let clip_id :=
            match ep.segments.head? with
            | some seg => seg.clip_id
            | none => first_pi.clip_id
          let _scene_segments := sceneSegments ep clip_id starts4
          slotsSetattr episodeSlots "scenes")

/-- `_maybe_keep_single_title_episode` with empty hints: every branch
returns the episode list unchanged (`title_playlists` is empty, so the
guard `if not title_pl` fires before any collapsing). -/
def maybe_keep_single_title_episode_nohints (episodes : List Episode) :
    List Episode :=
  episodes

/-- The reclassification pass of `scan_disc`: when every episode came from
Play-All decomposition, demote 'episode' playlists whose clips do not
appear in the episode list to 'extra'. -/
def reclassifyAfterPlayAll (episodes : List Episode)
    (play_all_names : List String) (unique_playlists : List Playlist)
    (classifications : List (String × String)) : List (String × String) :=
  if episodes ≠ [] ∧ episodes.all (fun ep => ep.playlist ∈ play_all_names) then
    classifications.map (fun entry =>
      if entry.2 = "episode" then
        match unique_playlists.find? (fun p => p.mpls = entry.1) with
        | some pl =>
          let ep_clip_ids := episodes.flatMap (fun ep => ep.segments.map SegmentRef.clip_id)
          if ¬ pl.play_items.any (fun pi => pi.clip_id ∈ ep_clip_ids) then
            (entry.1, "extra")
          else entry
        | none => entry
      else entry)
  else classifications

/-- `scan_disc` for a disc whose `index.bdmv`, `MovieObject.bdmv` and IG
streams are absent: `_parse_disc_hints` returns `{}` (so no `disc_hints`
analysis entry, no confidence boosts, no title-hint collapses), and the
enrichment passes run in their no-hints form.  Python mutates play-item
labels in place through shared object references: the embedding replaces
each working-set playlist inside the original `playlists` list by its
relabeled copy. -/
def scanDiscNoHints (bdmv_path : String) (playlists : List Playlist)
    (clips : List (String × ClipInfo)) : Except PyErr DiscAnalysis := do
  let dup_groups := find_duplicates playlists 250
  let dup_group_names := dup_groups.map (fun g => g.map Playlist.mpls)
  let unique_playlists := dedupWorkingSet playlists clips
  let warnings0 : List DiscWarning :=
    if dup_groups ≠ [] then
      [{ code := "DUPLICATES"
         message := "Found " ++ toString dup_groups.length ++
           " group(s) of duplicate playlists"
         context := [("groups",
           JValue.jarr (dup_group_names.map (fun g =>
             JValue.jarr (g.map JValue.jstr))))] }]
    else []
  let segment_freq := build_segment_frequency unique_playlists
  let play_all_names := (detect_play_all unique_playlists).map Playlist.mpls
  let labeled := label_segments unique_playlists segment_freq
  let playlists_after := playlists.map (fun pl =>
    match unique_playlists.findIdx? (fun u => u = pl) with
    | some i => labeled.getD i pl
    | none => pl)
  let play_all_labeled := labeled.filter (fun pl => pl.mpls ∈ play_all_names)
  let classifications := classify_playlists labeled play_all_labeled
  let episodes0 ← order_episodes labeled play_all_labeled classifications
  let episodes := maybe_keep_single_title_episode_nohints episodes0
  let classifications2 :=
    reclassifyAfterPlayAll episodes play_all_names labeled classifications
  let warnings1 := warnings0 ++
    (if episodes = [] then
      [{ code := "NO_EPISODES"
         message := "Could not identify any episodes on this disc" }]
    else [])
  let warnings2 := warnings1 ++
    (if play_all_names ≠ [] ∧ episodes ≠ [] ∧
        episodes.all (fun ep => ep.playlist ∈ play_all_names) then
      [{ code := "PLAY_ALL_ONLY"
         message := "Episodes were inferred by decomposing Play All " ++
           "playlist - no individual episode playlists found"
         context := [("play_all",
           JValue.jarr (play_all_names.map JValue.jstr))] }]
    else [])
  let special_features ←
    detect_special_features_nohints classifications2 playlists_after episodes
  build_episode_scenes_nohints episodes labeled
  pure
    { path := bdmv_path
      playlists := playlists_after
      clips := clips
      episodes := episodes
      warnings := warnings2
      special_features := special_features
      analysis :=
        [("duplicate_groups",
           JValue.jarr (dup_group_names.map (fun g =>
             JValue.jarr (g.map JValue.jstr)))),
         ("segment_freq_keys", JValue.jnum (natToQ segment_freq.length)),
         ("play_all", JValue.jarr (play_all_names.map JValue.jstr)),
         ("classifications",
           JValue.jobj (classifications2.map (fun p => (p.1, JValue.jstr p.2))))] }

/-! ### `bdpl/export/json_out.py` -/

/-- `list(key)` on the Python tuple behind a segment key. -/
def sKeyToJList : SKey → List JValue
  | .seg clip q_in q_out => [.jstr clip, .jnum q_in, .jnum q_out]
  | .chap clip r_in r_out => [.jstr clip, .jnum (intToQ r_in), .jnum (intToQ r_out)]
  | .scene playlist idx => [.jstr "SCENE", .jstr playlist, .jnum (natToQ idx)]

/-- The per-stream JSON entry used in both play items and the flattened
playlist stream list. -/
def streamToJ (s : StreamInfo) : JValue :=
  .jobj [("pid", .jnum (natToQ s.pid)), ("codec", .jstr s.codec), ("lang", .jstr s.lang)]

/-- JSON for one play item. -/
def playItemToJ (pi : PlayItem) : JValue :=
  .jobj
    [("clip_id", .jstr pi.clip_id),
     ("m2ts", .jstr pi.m2ts),
     ("in_time", .jnum (natToQ pi.in_time)),
     ("out_time", .jnum (natToQ pi.out_time)),
     ("duration_ms", .jnum pi.duration_ms),
     ("label", .jstr pi.label),
     ("segment_key", .jarr (sKeyToJList (pi.segment_key_v 250))),
     ("streams", .jarr (pi.streams.map streamToJ))]

/-- JSON for one chapter mark. -/
def chapterToJ (ch : ChapterMark) : JValue :=
  .jobj
    [("mark_id", .jnum (natToQ ch.mark_id)),
     ("mark_type", .jnum (natToQ ch.mark_type)),
     ("play_item_ref", .jnum (natToQ ch.play_item_ref)),
     ("timestamp", .jnum (natToQ ch.timestamp)),
     ("duration_ms", .jnum ch.duration_ms)]

/-- JSON for one playlist. -/
def playlistToJ (pl : Playlist) : JValue :=
  .jobj
    [("mpls", .jstr pl.mpls),
     ("duration_ms", .jnum pl.duration_ms),
     ("play_items", .jarr (pl.play_items.map playItemToJ)),
     ("chapters", .jarr (pl.chapters.map chapterToJ)),
     ("streams", .jarr ((pl.play_items.flatMap PlayItem.streams).map streamToJ))]

/-- JSON for one episode segment reference. -/
def segmentToJ (seg : SegmentRef) : JValue :=
  .jobj
    [("key", .jarr (sKeyToJList seg.key)),
     ("clip_id", .jstr seg.clip_id),
     ("in_ms", .jnum seg.in_ms),
     ("out_ms", .jnum seg.out_ms),
     ("duration_ms", .jnum seg.duration_ms),
     ("label", .jstr seg.label)]

/-- JSON for one episode. -/
def episodeToJ (ep : Episode) : JValue :=
  .jobj
    [("episode", .jnum (natToQ ep.episode)),
     ("playlist", .jstr ep.playlist),
     ("duration_ms", .jnum ep.duration_ms),
     ("confidence", .jnum ep.confidence),
     ("segments", .jarr (ep.segments.map segmentToJ))]

/-- JSON for one warning. -/
def warningToJ (w : DiscWarning) : JValue :=
  .jobj
    [("code", .jstr w.code),
     ("message", .jstr w.message),
     ("context", .jobj w.context)]

/-- JSON for one special feature (`chapter_start` only when present). -/
def specialFeatureToJ (sf : SpecialFeature) : JValue :=
  .jobj
    ([("index", .jnum (natToQ sf.index)),
      ("playlist", .jstr sf.playlist),
      ("duration_ms", .jnum sf.duration_ms),
      ("category", .jstr sf.category)] ++
      (match sf.chapter_start with
       | some cs => [("chapter_start", JValue.jnum (natToQ cs))]
       | none => []))

/-- `bdpl.export.json_out.analysis_to_dict`.  The source stamps
`disc.generated_at` with `datetime.now(timezone.utc).isoformat()`; the
wall-clock reading is the explicit `generated_at` argument here. -/
def analysis_to_dict (analysis : DiscAnalysis) (generated_at : String) : JValue :=
  .jobj
    [("schema_version", .jstr "bdpl.disc.v1"),
     ("disc", .jobj
       [("path", .jstr analysis.path),
        ("generated_at", .jstr generated_at)]),
     ("playlists", .jarr (analysis.playlists.map playlistToJ)),
     ("episodes", .jarr (analysis.episodes.map episodeToJ)),
     ("special_features", .jarr (analysis.special_features.map specialFeatureToJ)),
     ("warnings", .jarr (analysis.warnings.map warningToJ)),
     ("analysis", .jobj analysis.analysis)]

/-- Extract `disc.generated_at` from an emitted document. -/
def getGeneratedAt : JValue → Option String
  | .jobj fields =>
    match ((fields.find? (fun p => p.1 = "disc")).map (fun p => p.2) :
        Option JValue) with
    | some (.jobj disc) =>
      match ((disc.find? (fun p => p.1 = "generated_at")).map (fun p => p.2) :
          Option JValue) with
      | some (.jstr s) => some s
      | _ => none
    | _ => none
  | _ => none

/-- Erase `disc.generated_at` from an emitted document. -/
def scrubGeneratedAt : JValue → JValue
  | .jobj fields =>
    .jobj (fields.map (fun p =>
      if p.1 = "disc" then
        (p.1,
          match p.2 with
          | .jobj disc => JValue.jobj (disc.filter (fun q => q.1 ≠ "generated_at"))
          | v => v)
      else p))
  | v => v

/-! ### `bdpl/export/digital_archive.py` -/

/-- `bdpl.export.digital_archive.ArchiveItem`. -/
structure ArchiveItem where
  playlist : String
  index : ℕ
  clip_id : String
  in_ms : ℚ
  duration_ms : ℚ
  deriving DecidableEq, Repr

/-- `_digital_archive_playlists`: archive playlists from special features
and (sorted) classifications, first occurrence wins. -/
def digital_archive_playlists (analysis : DiscAnalysis) : List Playlist :=
  let names :=
    (analysis.special_features.filter (fun sf => sf.category = "digital_archive")).map
      SpecialFeature.playlist
  let classifications : List (String × String) :=
    match (dictGet? analysis.analysis "classifications" : Option JValue) with
    | some (.jobj entries) =>
      entries.filterMap (fun p =>
        match p.2 with
        | .jstr c => some (p.1, c)
        | _ => none)
    | _ => []
  let names2 := names ++
    ((pySorted (fun a b => strLe a.1 b.1) classifications).filterMap
      (fun p => if p.2 = "digital_archive" then some p.1 else none))
  (dedupKeepFirst names2).filterMap (fun name => plByName analysis.playlists name)

/-- `collect_archive_items`: one item per play item of each archive
playlist, 1-based. -/
def collect_archive_items (analysis : DiscAnalysis) : List ArchiveItem :=
  (digital_archive_playlists analysis).flatMap (fun pl =>
    (pl.play_items.enum).map (fun p =>
      { playlist := pl.mpls
        index := p.1 + 1
        clip_id := p.2.clip_id
        in_ms := Rat.divInt p.2.in_time 45
        duration_ms := p.2.duration_ms }))

/-- `_validate_image_format`: normalize jpeg to jpg, reject others. -/
def validate_image_format (image_format : String) : Except PyErr String :=
  let fmt := strToLower image_format
  if fmt = "jpg" ∨ fmt = "jpeg" then .ok "jpg"
  else if fmt = "png" then .ok "png"
  else .error (.valueErr "image_format must be one of: jpg, jpeg, png")

/-- Zero-padded 3-digit index (`f-string :03d`). -/
def pad3 (n : ℕ) : String :=
  if n < 10 then "00" ++ toString n
  else if n < 100 then "0" ++ toString n
  else toString n

/-- Python `str.rsplit(sep, 1)[0]`: everything before the last dot, or the
whole string when no dot occurs. -/
def stemOf (s : String) : String :=
  let parts := strSplitOnChar s '.'
  if parts.length ≤ 1 then s
  else String.intercalate "." parts.dropLast

/-- `_output_name`: deterministic output filename for one archive image. -/
def output_name (item : ArchiveItem) (image_format : String) : String :=
  stemOf item.playlist ++ "-" ++ pad3 item.index ++ "-" ++ item.clip_id ++
    "." ++ image_format

/-- A POSIX absolute path as its list of components. -/
def PathC : Type := List String

/-- `pathlib` joining of a relative name onto an absolute directory:
spurious empty and `.` components are collapsed at construction time. -/
def pathJoin (base : List String) (name : String) : List String :=
  base ++ ((strSplitOnChar name '/').filter (fun c => c ≠ "" ∧ c ≠ "."))

/-- Lexical `Path.resolve()` of a non-existing path: each `..` component
removes the preceding component (staying at the root when none remain). -/
def pathResolve (parts : List String) : List String :=
  parts.foldl (fun acc c => if c = ".." then acc.dropLast else acc ++ [c]) []

/-- Render an absolute path. -/
def pathStr (parts : List String) : String :=
  "/" ++ String.intercalate "/" parts

/-- `_resolve_output_path`: resolve the output file under `out` and reject
any resolved path that escapes the target directory
(`Path.is_relative_to`). -/
def resolve_output_path (out : List String) (item : ArchiveItem)
    (image_format : String) : Except PyErr (List String) :=
  let output := pathResolve (pathJoin out (output_name item image_format))
  if out.isPrefixOf output then .ok output
  else .error (.valueErr ("Output path escapes target directory: " ++ pathStr output))

/-- Fixed-point seconds formatting used for `-ss` (`:.3f` on
`max(0.0, in_ms) / 1000.0`). -/
def formatSecs3 (in_ms : ℚ) : String :=
  let v := qdiv (qmax 0 in_ms) (natToQ 1000)
  let scaled := pyRound (qmul v (natToQ 1000))
  let n := scaled.toNat
  toString (n / 1000) ++ "." ++ pad3 (n % 1000)

/-- `_build_ffmpeg_cmd`: argument vector capturing one frame. -/
def build_ffmpeg_cmd (ffmpeg : String) (stream_file : List String)
    (out_file : List String) (in_ms : ℚ) (image_format : String) :
    List String :=
  [ffmpeg, "-hide_banner", "-loglevel", "error", "-y", "-ss",
    formatSecs3 in_ms, "-i", pathStr stream_file, "-frames:v", "1"] ++
    (if image_format = "jpg" then ["-q:v", "2"] else []) ++
    [pathStr out_file]

/-- One entry of the dry-run plan. -/
structure DryRunEntry where
  playlist : String
  index : ℕ
  clip_id : String
  output : String
  command : List String
  deriving DecidableEq, Repr

/-- `get_digital_archive_dry_run`: the ffmpeg commands that archive
extraction would run.  `out` and `stream` are the already-resolved output
and STREAM directories. -/
def get_digital_archive_dry_run (analysis : DiscAnalysis) (out : List String)
    (stream : List String) (ffmpeg : String) (image_format : String) :
    Except PyErr (List DryRunEntry) := do
  let fmt ← validate_image_format image_format
  (collect_archive_items analysis).mapM (fun item => do
    let source := stream ++ [item.clip_id ++ ".m2ts"]
    let output ← resolve_output_path out item fmt
    pure
      { playlist := item.playlist
        index := item.index
        clip_id := item.clip_id
        output := pathStr output
        command := build_ffmpeg_cmd ffmpeg source output item.in_ms fmt })

/-! ### `bdpl/bdmv/reader.py`

A big-endian cursor over a byte buffer.  The MPLS/CLPI parsers always read
whole files, so `start = 0` and `end = len(data)`.  Python exceptions
unwind while leaving the mutated reader in place, which a caller's
`try/except` then observes; a parse step therefore returns both the
`Except` outcome and the reader state. -/

structure Rd where
  data : List ℕ
  pos : ℕ
  deriving DecidableEq, Repr

/-- Parse result: outcome plus the reader state after the step. -/
def PR (α : Type) : Type := Except PyErr α × Rd

/-- Sequencing of parse steps (exception short-circuits, state kept). -/
def pbind {α β : Type} (x : PR α) (f : α → Rd → PR β) : PR β :=
  match x with
  | (.ok a, r) => f a r
  | (.error e, r) => (.error e, r)

/-- `BinaryReader.require`: bounds guard for the next `n` bytes. -/
def rdRequire (n : ℕ) (r : Rd) : PR Unit :=
  if r.data.length - r.pos < n then
    (.error (.valueErr "not enough bytes remain"), r)
  else (.ok (), r)

/-- `read_bytes`: `n` raw bytes, advancing the cursor. -/
def readBytes (n : ℕ) (r : Rd) : PR (List ℕ) :=
  pbind (rdRequire n r) (fun _ r =>
    (.ok ((r.data.drop r.pos).take n), { r with pos := r.pos + n }))

/-- Big-endian value of a byte list. -/
def beVal (bytes : List ℕ) : ℕ :=
  bytes.foldl (fun a b => a * 256 + b) 0

/-- `u8`. -/
def rdU8 (r : Rd) : PR ℕ :=
  pbind (readBytes 1 r) (fun bs r => (.ok (beVal bs), r))

/-- `u16` (big-endian). -/
def rdU16 (r : Rd) : PR ℕ :=
  pbind (readBytes 2 r) (fun bs r => (.ok (beVal bs), r))

/-- `u32` (big-endian). -/
def rdU32 (r : Rd) : PR ℕ :=
  pbind (readBytes 4 r) (fun bs r => (.ok (beVal bs), r))

/-- `read_string`: `n` bytes, NULs stripped, decoded as ASCII.  Python
checks the decode after stripping; since NUL bytes are ASCII the guard is
equivalently stated on the unstripped bytes. -/
def rdString (n : ℕ) (r : Rd) : PR String :=
  pbind (readBytes n r) (fun bs r =>
    if bs.all (fun b => b < 128) then
      (.ok (String.mk ((bs.filter (fun b => b ≠ 0)).map Char.ofNat)), r)
    else (.error (.valueErr "UnicodeDecodeError: not ascii"), r))

/-- `seek` to an absolute offset (the parsers only seek forward of 0). -/
def rdSeek (offset : ℕ) (r : Rd) : PR Unit :=
  if r.data.length < offset then
    (.error (.valueErr "seek out of range"), r)
  else (.ok (), { r with pos := offset })

/-- `skip` `n` bytes. -/
def rdSkip (n : ℕ) (r : Rd) : PR Unit :=
  pbind (rdRequire n r) (fun _ r => (.ok (), { r with pos := r.pos + n }))

/-! ### `bdpl/bdmv/mpls.py` -/

/-- `_CODING_TYPE` (MPLS codec names). -/
def mplsCodingType : List (ℕ × String) :=
  [(0x01, "MPEG-1 Video"), (0x02, "MPEG-2 Video"), (0x1B, "H.264/AVC"),
   (0x24, "HEVC"), (0x03, "MPEG-1 Audio"), (0x04, "MPEG-2 Audio"),
   (0x80, "LPCM"), (0x81, "AC-3"), (0x82, "DTS"), (0x83, "TrueHD"),
   (0x84, "AC-3+"), (0x85, "DTS-HD HR"), (0x86, "DTS-HD MA"),
   (0xA1, "DD+ secondary"), (0xA2, "DTS-HD secondary"), (0x90, "PGS"),
   (0x91, "IG"), (0x92, "Text subtitle")]

/-- Upper-case hex digit. -/
def hexDigit (n : ℕ) : String :=
  (["0", "1", "2", "3", "4", "5", "6", "7", "8", "9", "A", "B", "C", "D",
    "E", "F"]).getD n "0"

/-- `f"0x{coding_type:02X}"` for a byte value. -/
def hex2 (n : ℕ) : String :=
  "0x" ++ hexDigit (n / 16 % 16) ++ hexDigit (n % 16)

/-- Codec-name lookup with the hex fallback. -/
def codecName (table : List (ℕ × String)) (coding_type : ℕ) : String :=
  match table.find? (fun p => p.1 = coding_type) with
  | some p => p.2
  | none => hex2 coding_type

def mplsVideoCodecs : List ℕ := [0x01, 0x02, 0x1B, 0x24]
def mplsAudioCodecs : List ℕ :=
  [0x03, 0x04, 0x80, 0x81, 0x82, 0x83, 0x84, 0x85, 0x86, 0xA1, 0xA2]
def mplsPgIgCodecs : List ℕ := [0x90, 0x91, 0x92]

/-- `mpls._parse_stream_entry`: returns `(stream_type, pid)`. -/
def parse_stream_entry (r : Rd) : PR (ℕ × ℕ) :=
  pbind (rdU8 r) (fun entry_len r =>
    let entry_start := r.pos
    pbind (rdU8 r) (fun stream_type r =>
      let pidStep : PR ℕ :=
        if stream_type = 0x01 then rdU16 r
        else if stream_type = 0x02 then
          pbind (rdU16 r) (fun pid r => pbind (rdSkip 2 r) (fun _ r => (.ok pid, r)))
        else if stream_type = 0x03 ∨ stream_type = 0x04 then
          pbind (rdSkip 1 r) (fun _ r => rdU16 r)
        else (.ok 0, r)
      pbind pidStep (fun pid r =>
        pbind (rdSeek (entry_start + entry_len) r) (fun _ r =>
          (.ok (stream_type, pid), r)))))

/-- `mpls._parse_stream_attrs`: returns `(codec, lang, extra)`. -/
def parse_stream_attrs (r : Rd) : PR (String × String × List (String × ℤ)) :=
  pbind (rdU8 r) (fun attr_len r =>
    let attr_start := r.pos
    pbind (rdU8 r) (fun coding_type r =>
      let codec := codecName mplsCodingType coding_type
      let body : PR (String × List (String × ℤ)) :=
        if coding_type ∈ mplsVideoCodecs then
          pbind (rdU8 r) (fun packed r =>
            (.ok ("", [("video_format", ((packed >>> 4) &&& 0x0F : ℕ)),
                       ("frame_rate", (packed &&& 0x0F : ℕ))]), r))
        else if coding_type ∈ mplsAudioCodecs then
          pbind (rdU8 r) (fun packed r =>
            pbind (rdString 3 r) (fun lang r =>
              (.ok (lang, [("audio_format", ((packed >>> 4) &&& 0x0F : ℕ)),
                           ("sample_rate", (packed &&& 0x0F : ℕ))]), r)))
        else if coding_type ∈ mplsPgIgCodecs then
          pbind (rdString 3 r) (fun lang r => (.ok (lang, []), r))
        else (.ok ("", []), r)
      pbind body (fun le r =>
        pbind (rdSeek (attr_start + attr_len) r) (fun _ r =>
          (.ok (codec, le.1, le.2), r)))))

/-- The stream loop of `_parse_stn_table`. -/
def parseStnStreams : ℕ → Rd → PR (List StreamInfo)
  | 0, r => (.ok [], r)
  | n + 1, r =>
    pbind (parse_stream_entry r) (fun tp r =>
      pbind (parse_stream_attrs r) (fun cle r =>
        pbind (parseStnStreams n r) (fun rest r =>
          (.ok ({ pid := tp.2
                  stream_type := tp.1
                  codec := cle.1
                  lang := cle.2.1
                  extra := cle.2.2 ++ [("stream_type", (tp.1 : ℤ))] } :: rest), r))))

/-- `mpls._parse_stn_table`. -/
def parse_stn_table (r : Rd) : PR (List StreamInfo) :=
  pbind (rdU16 r) (fun stn_len r =>
    if stn_len = 0 then (.ok [], r)
    else
      let stn_start := r.pos
      pbind (rdSkip 2 r) (fun _ r =>
        pbind (rdU8 r) (fun num_video r =>
          pbind (rdU8 r) (fun num_audio r =>
            pbind (rdU8 r) (fun num_pg r =>
              pbind (rdU8 r) (fun num_ig r =>
                pbind (rdU8 r) (fun num_secondary_audio r =>
                  pbind (rdU8 r) (fun num_secondary_video r =>
                    pbind (rdU8 r) (fun num_pip_pg r =>
                      pbind (rdSkip 5 r) (fun _ r =>
                        let total := num_video + num_audio + num_pg + num_ig +
                          num_secondary_audio + num_secondary_video + num_pip_pg
                        pbind (parseStnStreams total r) (fun streams r =>
                          pbind (rdSeek (stn_start + stn_len) r) (fun _ r =>
                            (.ok streams, r)))))))))))))

/-- `mpls._parse_play_item`.  The STN_table is parsed under `try/except`:
on failure the stream list is empty and parsing continues from the reader
state left by the exception, which the closing `seek` then discards. -/
def parse_play_item (r : Rd) : PR PlayItem :=
  pbind (rdU16 r) (fun pi_len r =>
    let pi_start := r.pos
    pbind (rdString 5 r) (fun clip_name r =>
      pbind (rdString 4 r) (fun _ r =>
        pbind (rdU16 r) (fun flags r =>
          let is_multi_angle := (flags >>> 4) &&& 1 = 1
          let connection_condition := flags &&& 0x0F
          pbind (rdSkip 1 r) (fun _ r =>
            pbind (rdU32 r) (fun in_time r =>
              pbind (rdU32 r) (fun out_time r =>
                pbind (rdSkip 8 r) (fun _ r =>
                  pbind (rdSkip 1 r) (fun _ r =>
                    pbind (rdU8 r) (fun still_mode r =>
                      pbind (if still_mode = 0x01 then rdSkip 2 r else rdSkip 2 r)
                        (fun _ r =>
                        let angles : PR Unit :=
                          if is_multi_angle then
                            pbind (rdU8 r) (fun angle_count r =>
                              pbind (rdSkip 1 r) (fun _ r =>
                                rdSkip (10 * (angle_count - 1)) r))
                          else (.ok (), r)
                        pbind angles (fun _ r =>
                          let stn := parse_stn_table r
                          let streams := match stn.1 with
                            | .ok s => s
                            | .error _ => []
                          let r := stn.2
                          pbind (rdSeek (pi_start + pi_len) r) (fun _ r =>
                            (.ok { clip_id := clip_name
                                   m2ts := clip_name ++ ".m2ts"
                                   in_time := in_time
                                   out_time := out_time
                                   connection_condition := connection_condition
                                   streams := streams }, r))))))))))))))

/-- The play-item loop of `_parse_play_list`: a failed item is skipped and
the loop continues from the reader state the exception left behind. -/
def parsePlayItems : ℕ → Rd → PR (List PlayItem)
  | 0, r => (.ok [], r)
  | n + 1, r =>
    match parse_play_item r with
    | (.ok item, r) =>
      pbind (parsePlayItems n r) (fun rest r => (.ok (item :: rest), r))
    | (.error _, r) => parsePlayItems n r

/-- `mpls._parse_play_list`: the returned multi-angle flag is initialized
`False` and never updated by the source. -/
def parse_play_list (r : Rd) : PR (List PlayItem × Bool) :=
  pbind (rdSkip 4 r) (fun _ r =>
    pbind (rdSkip 2 r) (fun _ r =>
      pbind (rdU16 r) (fun num_items r =>
        pbind (rdSkip 2 r) (fun _ r =>
          pbind (parsePlayItems num_items r) (fun items r =>
            (.ok (items, false), r))))))

/-- The mark loop of `_parse_marks`: mark `i` is 14 bytes
(reserved, type, item ref, 45 kHz timestamp, pid, raw duration); the raw
32-bit duration is divided by 45 for `duration_ms` while the timestamp is
stored as raw ticks. -/
def parseMarksFrom : ℕ → ℕ → Rd → PR (List ChapterMark)
  | _, 0, r => (.ok [], r)
  | i, n + 1, r =>
    pbind (rdSkip 1 r) (fun _ r =>
      pbind (rdU8 r) (fun mark_type r =>
        pbind (rdU16 r) (fun ref_item r =>
          pbind (rdU32 r) (fun timestamp r =>
            pbind (rdU16 r) (fun entry_es_pid r =>
              pbind (rdU32 r) (fun duration r =>
                pbind (parseMarksFrom (i + 1) n r) (fun rest r =>
                  (.ok ({ mark_id := i
                          mark_type := mark_type
                          play_item_ref := ref_item
                          timestamp := timestamp
                          entry_es_pid := entry_es_pid
                          duration_ms := Rat.divInt duration 45 } :: rest), r))))))))

/-- `mpls._parse_marks`. -/
def parse_marks (r : Rd) : PR (List ChapterMark) :=
  pbind (rdSkip 4 r) (fun _ r =>
    pbind (rdU16 r) (fun num_marks r =>
      parseMarksFrom 0 num_marks r))

/-- `mpls._parse_mpls_reader`: magic is checked, the 4-byte version is
read and discarded, then the PlayList and PlayListMark sections are
followed (a failing mark section degrades to an empty chapter list). -/
def parse_mpls_reader (r : Rd) (name : String) : PR Playlist :=
  pbind (rdString 4 r) (fun magic r =>
    if magic ≠ "MPLS" then
      (.error (.valueErr "Not an MPLS file"), r)
    else
      pbind (rdString 4 r) (fun _version r =>
        pbind (rdU32 r) (fun playlist_start r =>
          pbind (rdU32 r) (fun mark_start r =>
            pbind (rdU32 r) (fun _ext_start r =>
              pbind (rdSeek playlist_start r) (fun _ r =>
                pbind (parse_play_list r) (fun itemsMulti r =>
                  let marksTry :=
                    pbind (rdSeek mark_start r) (fun _ r => parse_marks r)
                  let chapters := match marksTry.1 with
                    | .ok chs => chs
                    | .error _ => []
                  (.ok { mpls := name
                         play_items := itemsMulti.1
                         chapters := chapters
                         is_multi_angle := itemsMulti.2 }, marksTry.2))))))))

/-- `parse_mpls` on an in-memory buffer. -/
def parse_mpls_bytes (data : List ℕ) (name : String) : Except PyErr Playlist :=
  (parse_mpls_reader { data := data, pos := 0 } name).1

/-! ### `bdpl/bdmv/clpi.py` -/

/-- `_CODEC_NAME` (CLPI codec names). -/
def clpiCodecName : List (ℕ × String) :=
  [(0x01, "MPEG-1"), (0x02, "MPEG-2"), (0x1B, "H.264"), (0x24, "HEVC"),
   (0xEA, "VC-1"), (0x03, "MPEG-1 Audio"), (0x04, "MPEG-2 Audio"),
   (0x80, "LPCM"), (0x81, "AC-3"), (0x82, "DTS"), (0x83, "TrueHD"),
   (0x84, "E-AC-3"), (0x85, "DTS-HD HR"), (0x86, "DTS-HD MA"),
   (0xA1, "DD+ Secondary"), (0xA2, "DTS-HD Secondary"), (0x90, "PGS"),
   (0x91, "IG"), (0x92, "Text Subtitle")]

def clpiVideoTypes : List ℕ := [0x01, 0x02, 0x1B, 0x24, 0xEA]
def clpiAudioTypes : List ℕ :=
  [0x03, 0x04, 0x80, 0x81, 0x82, 0x83, 0x84, 0x85, 0x86, 0xA1, 0xA2]

/-- `clpi._parse_stream_attrs`: the whole branch body runs under
`try/except: pass`, so a read failure keeps whatever `extra` entries were
already assigned and leaves `lang` empty. -/
def clpi_parse_stream_attrs (coding_type : ℕ) (r : Rd) :
    PR (String × List (String × ℤ)) :=
  if coding_type ∈ clpiVideoTypes then
    match rdU8 r with
    | (.ok packed, r) =>
      (.ok ("", [("video_format", ((packed >>> 4 : ℕ) : ℤ)),
                 ("frame_rate", ((packed &&& 0x0F : ℕ) : ℤ))]), r)
    | (.error _, r) => (.ok ("", []), r)
  else if coding_type ∈ clpiAudioTypes then
    match rdU8 r with
    | (.ok packed, r) =>
      let extra : List (String × ℤ) :=
        [("channel_layout", ((packed >>> 4 : ℕ) : ℤ)),
         ("sample_rate", ((packed &&& 0x0F : ℕ) : ℤ))]
      (match rdString 3 r with
       | (.ok lang, r) => (.ok (lang, extra), r)
       | (.error _, r) => (.ok ("", extra), r))
    | (.error _, r) => (.ok ("", []), r)
  else if coding_type = 0x90 ∨ coding_type = 0x91 then
    match rdString 3 r with
    | (.ok lang, r) => (.ok (lang, []), r)
    | (.error _, r) => (.ok ("", []), r)
  else if coding_type = 0x92 then
    match rdU8 r with
    | (.ok char_code, r) =>
      let extra : List (String × ℤ) := [("char_code", (char_code : ℤ))]
      (match rdString 3 r with
       | (.ok lang, r) => (.ok (lang, extra), r)
       | (.error _, r) => (.ok ("", extra), r))
    | (.error _, r) => (.ok ("", []), r)
  else (.ok ("", []), r)

/-- The per-stream body of `_parse_program_info`: pid, attribute length,
then a `try/except`-guarded coding-type read and attribute parse; the
cursor always advances to the end of the attribute block afterwards. -/
def clpiParseStream (r : Rd) : PR (Option StreamInfo) :=
  pbind (rdU16 r) (fun stream_pid r =>
    pbind (rdU8 r) (fun attr_len r =>
      let attr_start := r.pos
      let parsed : Option StreamInfo × Rd :=
        match rdU8 r with
        | (.ok coding_type, r) =>
          let codec := codecName clpiCodecName coding_type
          (match clpi_parse_stream_attrs coding_type r with
           | (.ok le, r) =>
             (some { pid := stream_pid
                     stream_type := coding_type
                     codec := codec
                     lang := le.1
                     extra := le.2 }, r)
           | (.error _, r) => (none, r))
        | (.error _, r) => (none, r)
      pbind (rdSeek (attr_start + attr_len) parsed.2) (fun _ r =>
        (.ok parsed.1, r))))

/-- The stream loop over one program. -/
def clpiParseStreams : ℕ → Rd → PR (List StreamInfo)
  | 0, r => (.ok [], r)
  | n + 1, r =>
    pbind (clpiParseStream r) (fun s r =>
      pbind (clpiParseStreams n r) (fun rest r =>
        (.ok (match s with | some si => si :: rest | none => rest), r)))

/-- The program loop of `_parse_program_info`. -/
def clpiParsePrograms : ℕ → Rd → PR (List StreamInfo)
  | 0, r => (.ok [], r)
  | n + 1, r =>
    pbind (rdSkip 4 r) (fun _ r =>
      pbind (rdSkip 2 r) (fun _ r =>
        pbind (rdU8 r) (fun num_streams r =>
          pbind (rdSkip 1 r) (fun _ r =>
            pbind (clpiParseStreams num_streams r) (fun streams r =>
              pbind (clpiParsePrograms n r) (fun rest r =>
                (.ok (streams ++ rest), r)))))))

/-- `clpi._parse_program_info`. -/
def parse_program_info (r : Rd) : PR (List StreamInfo) :=
  pbind (rdU32 r) (fun length r =>
    if length = 0 then (.ok [], r)
    else
      pbind (rdSkip 1 r) (fun _ r =>
        pbind (rdU8 r) (fun num_programs r =>
          clpiParsePrograms num_programs r)))

/-- `clpi._parse_clpi_reader`: magic `HDMV` is checked, the 4-byte version
is read and discarded, the ClipInfo section at offset 40 is read, then
ProgramInfo is parsed at its header offset. -/
def parse_clpi_reader (r : Rd) (clip_id : String) : PR ClipInfo :=
  pbind (rdString 4 r) (fun magic r =>
    if magic ≠ "HDMV" then
      (.error (.valueErr "Not a CLPI file: bad magic"), r)
    else
      pbind (rdString 4 r) (fun _version r =>
        pbind (rdU32 r) (fun _seq_info_start r =>
          pbind (rdU32 r) (fun program_info_start r =>
            pbind (rdU32 r) (fun _cpi_start r =>
              pbind (rdU32 r) (fun _clip_mark_start r =>
                pbind (rdU32 r) (fun _ext_data_start r =>
                  pbind (rdSeek 40 r) (fun _ r =>
                    pbind (rdU32 r) (fun _ci_length r =>
                      pbind (rdSkip 2 r) (fun _ r =>
                        pbind (rdU8 r) (fun _clip_stream_type r =>
                          pbind (rdU8 r) (fun _application_type r =>
                            pbind (rdSkip 4 r) (fun _ r =>
                              pbind (rdU32 r) (fun _ts_recording_rate r =>
                                pbind (rdU32 r) (fun _num_source_packets r =>
                                  pbind (rdSeek program_info_start r) (fun _ r =>
                                    pbind (parse_program_info r) (fun streams r =>
                                      (.ok { clip_id := clip_id
                                             streams := streams }, r))))))))))))))))))

/-- `parse_clpi` on an in-memory buffer. -/
def parse_clpi_bytes (data : List ℕ) (clip_id : String) : Except PyErr ClipInfo :=
  (parse_clpi_reader { data := data, pos := 0 } clip_id).1

/-! ### Derived accessors and byte-level observation helpers used by the
theorems -/

deriving instance DecidableEq for Except

/-- `episodes[i].segments[-1].out_ms` (0 for an episode without
segments). -/
def epLastOut (e : Episode) : ℚ :=
  match e.segments.getLast? with
  | some s => s.out_ms
  | none => 0

/-- `episodes[i].segments[0].in_ms` (0 for an episode without
segments). -/
def epFirstIn (e : Episode) : ℚ :=
  match e.segments.head? with
  | some s => s.in_ms
  | none => 0

/-- The byte of a buffer at an absolute offset. -/
def byteAt (data : List ℕ) (p : ℕ) : ℕ :=
  data.getD p 0

/-- The big-endian 16-bit value at an absolute offset. -/
def be16At (data : List ℕ) (p : ℕ) : ℕ :=
  beVal ((data.drop p).take 2)

/-- The big-endian 32-bit value at an absolute offset. -/
def be32At (data : List ℕ) (p : ℕ) : ℕ :=
  beVal ((data.drop p).take 4)

/-! ### Concrete fixtures for the claim theorems -/

/-- A bare play item with no streams. -/
def fxItem (clip : String) (tin tout : ℕ) : PlayItem :=
  { clip_id := clip
    m2ts := clip ++ ".m2ts"
    in_time := tin
    out_time := tout
    connection_condition := 1
    streams := [] }

/-- An entry-point chapter mark on play item 0. -/
def fxMark (ts i : ℕ) : ChapterMark :=
  { mark_id := i, mark_type := 1, play_item_ref := 0, timestamp := ts }

/-- Minutes to 45 kHz ticks. -/
def fxMinTicks (m : ℕ) : ℕ :=
  m * 2700000

/-- A 100 s single-item playlist (classified `extra`). -/
def fxExtraPl : Playlist :=
  { mpls := "00001.mpls", play_items := [fxItem "00001" 0 4500000] }

/-- A 25 min single-item playlist (classified `episode`). -/
def fxEpisodePl : Playlist :=
  { mpls := "00001.mpls", play_items := [fxItem "00001" 0 67500000] }

/-- Duplicate pair: same loose signature, the second has a chapter and so
wins `pick_representative`. -/
def fxDupA : Playlist :=
  { mpls := "00001.mpls", play_items := [fxItem "X" 0 45000000] }

/-- See `fxDupA`. -/
def fxDupB : Playlist :=
  { mpls := "00002.mpls"
    play_items := [fxItem "X" 0 45000000]
    chapters := [fxMark 0 0] }

/-- 75 min playlist with chapters at 0/25/40/50 min: the greedy walk
splits at 25 min and at the final chapter (50 min), leaving a 25 min tail
that is at least `0.6 * target` yet is not emitted. -/
def fxChapCex : Playlist :=
  { mpls := "00002.mpls"
    play_items := [fxItem "00007" 0 (fxMinTicks 75)]
    chapters := [fxMark 0 0, fxMark (fxMinTicks 25) 1, fxMark (fxMinTicks 40) 2,
      fxMark (fxMinTicks 50) 3] }

/-- 50 min playlist with chapters at 0/12/25/35 min: one split at 25 min,
then the 25 min tail is emitted as the final episode. -/
def fxChapGood : Playlist :=
  { mpls := "00002.mpls"
    play_items := [fxItem "00007" 0 (fxMinTicks 50)]
    chapters := [fxMark 0 0, fxMark (fxMinTicks 12) 1, fxMark (fxMinTicks 25) 2,
      fxMark (fxMinTicks 35) 3] }

/-- `uniq` distinct 0.45 s items followed by `reps` repeats of the first
clips. -/
def fxArcItems (uniq reps : ℕ) : List PlayItem :=
  ((List.range uniq).map (fun i => fxItem ("A" ++ toString i) 0 20250)) ++
    ((List.range reps).map (fun i => fxItem ("A" ++ toString i) 0 20250))

/-- 20 ultra-short items, 16 distinct clips: unique-clip ratio exactly
0.8. -/
def fxArc20 : Playlist :=
  { mpls := "00005.mpls", play_items := fxArcItems 16 4 }

/-- 20 ultra-short items, 15 distinct clips: ratio 0.75. -/
def fxArc075 : Playlist :=
  { mpls := "00006.mpls", play_items := fxArcItems 15 5 }

/-- 19 ultra-short items, 16 distinct clips. -/
def fxArc19 : Playlist :=
  { mpls := "00007.mpls", play_items := fxArcItems 16 3 }

/-- An analysis with no content (determinism fixture). -/
def fxEmptyAnalysis : DiscAnalysis :=
  { path := "/disc"
    playlists := []
    clips := []
    episodes := []
    warnings := [] }

/-- An analysis whose one playlist is a digital archive with the given
clip id (path-traversal fixture). -/
def fxArchiveAnalysis (clip : String) : DiscAnalysis :=
  { path := "/disc"
    playlists := [{ mpls := "00003.mpls", play_items := [fxItem clip 0 45000] }]
    clips := []
    episodes := []
    warnings := []
    analysis := [("classifications",
      JValue.jobj [("00003.mpls", JValue.jstr "digital_archive")])] }

/-- Big-endian 32-bit byte encoding. -/
def fxU32 (n : ℕ) : List ℕ :=
  [n / 16777216 % 256, n / 65536 % 256, n / 256 % 256, n % 256]

/-- A minimal MPLS file with the given 4-byte version field: magic
`MPLS`, playlist section at 20 (zero play items), mark section at 30 with
one mark (timestamp 900 ticks, raw duration 900). -/
def fxMplsFile (v : List ℕ) : List ℕ :=
  [77, 80, 76, 83] ++ v ++ fxU32 20 ++ fxU32 30 ++ fxU32 0 ++
    ([0, 0, 0, 0] ++ [0, 0] ++ [0, 0] ++ [0, 0]) ++
    ([0, 0, 0, 0] ++ [0, 1] ++ [0, 1, 0, 0] ++ fxU32 900 ++ [0, 0] ++ fxU32 900)

/-- The playlist `fxMplsFile` parses to (for any accepted version). -/
def fxMplsParsed : Playlist :=
  { mpls := "x.mpls"
    play_items := []
    chapters := [{ mark_id := 0
                   mark_type := 1
                   play_item_ref := 0
                   timestamp := 900
                   entry_es_pid := 0
                   duration_ms := Rat.divInt 900 45 }]
    is_multi_angle := false }

/-- A minimal CLPI file with the given 4-byte version field: magic
`HDMV`, ProgramInfo at 60 with zero length. -/
def fxClpiFile (v : List ℕ) : List ℕ :=
  [72, 68, 77, 86] ++ v ++ fxU32 0 ++ fxU32 60 ++ fxU32 0 ++ fxU32 0 ++ fxU32 0 ++
    List.replicate 12 0 ++ List.replicate 20 0 ++ fxU32 0

/-- The clip info `fxClpiFile` parses to. -/
def fxClpiParsed : ClipInfo :=
  { clip_id := "00001", streams := [] }

example : pyRound (mkRat 3 2) = 2 := by decide
example : pyRound (mkRat 5 2) = 2 := by decide
example : pyRound (mkRat 1 2) = 0 := by decide
example : pyRound (mkRat (-3) 2) = -2 := by decide
example : pyRound (mkRat 7 5) = 1 := by decide
example : qadd (mkRat 1 3) (mkRat 1 6) = mkRat 1 2 := by decide
example : qdiv (mkRat 45 1) (mkRat 45 1) = 1 := by decide
example : strLe "00002.mpls" "00010.mpls" = true := by decide
example : strSplitOnChar "a/../b" '/' = ["a", "..", "b"] := by decide

/-! ## Claim theorems -/

/-- C1: the claim says `scan_disc` never fails and returns a
`DiscAnalysis` even when no episodes are identified.  In the code,
`_special_features_from_classifications` constructs `SpecialFeature` with
a `menu_visible=True` keyword that the slots dataclass does not declare
(`TypeError`), and `_build_episode_scenes` assigns `episode.scenes`, an
attribute `Episode` does not declare (`AttributeError`): a disc with one
100 s `extra` playlist crashes in step 8, and a disc with one 25 min
`episode` playlist crashes in step 9. -/
theorem c1_scan_disc_raises_instead_of_returning_analysis :
    scanDiscNoHints "/disc" [fxExtraPl] [] =
      .error (.typeErr "unexpected keyword argument menu_visible") ∧
    scanDiscNoHints "/disc" [fxEpisodePl] [] =
      .error (.attrErr "object has no attribute scenes") := by
  set_option maxRecDepth 4000 in exact ⟨rfl, rfl⟩

/-- C8: the claim says `signature_exact` returns the unquantized
`(clip_id, in_ms, out_ms)` tuple per play item.  The code calls
`segment_key(quant_ms=0)`, which divides each timestamp by the zero grid:
for every playlist with at least one play item it raises
`ZeroDivisionError` instead of returning a tuple. -/
theorem c8_signature_exact_divides_by_zero (pl : Playlist)
    (h : pl.play_items ≠ []) :
    pl.signature_exact = .error .zeroDivision := by
  unfold Playlist.signature_exact
  cases hp : pl.play_items with
  | nil => exact absurd hp h
  | cons pi rest =>
    simp [List.mapM, List.mapM.loop, PlayItem.segment_key, Bind.bind, Except.bind]

/-- Witness for C8 at a concrete single-item playlist. -/
theorem c8_signature_exact_divides_by_zero_witness :
    fxExtraPl.play_items ≠ [] ∧
    fxExtraPl.signature_exact = .error .zeroDivision :=
  ⟨by decide, c8_signature_exact_divides_by_zero fxExtraPl (by decide)⟩

/-- C4 counterexample: two playlists share a loose signature; the
representative (the one with more chapters) is the second one, yet the
deduplicated working set retains BOTH the first-encountered playlist and
the representative — not "exactly one playlist from that cluster". -/
theorem c4_first_seen_duplicate_retained_besides_representative :
    find_duplicates [fxDupA, fxDupB] 250 = [[fxDupA, fxDupB]] ∧
    pick_representative [fxDupA, fxDupB] [] = fxDupB ∧
    dedupWorkingSet [fxDupA, fxDupB] [] = [fxDupA, fxDupB] ∧
    fxDupA ≠ fxDupB := by
  refine ⟨by decide, by decide, by decide, by decide⟩

/-- C5 counterexample: on `fxChapCex` the estimate is 3 and the trailing
block after the last split (25 min, half the remaining playlist) is at
least `0.6 * target`, yet no final episode is emitted because the last
split happened exactly at the final chapter: the returned decomposition
stops at 3 000 000 ms while the playlist runs to 4 500 000 ms. -/
theorem c5_substantial_tail_dropped_after_final_chapter_split :
    episodes_from_chapters fxChapCex = .ok
      [{ episode := 1
         playlist := "00002.mpls"
         duration_ms := 1500000
         confidence := mkRat 3 5
         segments := [{ key := SKey.chap "00007" 0 1500000
                        clip_id := "00007"
                        in_ms := 0
                        out_ms := 1500000
                        duration_ms := 1500000
                        label := "BODY" }] },
       { episode := 2
         playlist := "00002.mpls"
         duration_ms := 1500000
         confidence := mkRat 3 5
         segments := [{ key := SKey.chap "00007" 1500000 3000000
                        clip_id := "00007"
                        in_ms := 1500000
                        out_ms := 3000000
                        duration_ms := 1500000
                        label := "BODY" }] }] ∧
    max 1 (pyRound (qdiv fxChapCex.duration_ms (natToQ (25 * 60 * 1000)))) = 3 ∧
    qmul (qdiv fxChapCex.duration_ms (intToQ 3)) (mkRat 3 5) ≤
      qsub (ticks_to_ms (fxMinTicks 75)) 3000000 ∧
    (3000000 : ℚ) < ticks_to_ms (fxMinTicks 75) := by
  refine ⟨by decide, by decide, by decide, by decide⟩

/-- C2 counterexample: the emitted JSON document embeds the wall-clock
reading in `disc.generated_at`, so two runs on identical input bytes at
different times produce different documents. -/
theorem c2_output_embeds_wall_clock :
    analysis_to_dict fxEmptyAnalysis "2024-01-01T00:00:00+00:00" ≠
      analysis_to_dict fxEmptyAnalysis "2024-01-01T00:00:01+00:00" := by
  intro h
  have h1 : getGeneratedAt
      (analysis_to_dict fxEmptyAnalysis "2024-01-01T00:00:00+00:00") =
      some "2024-01-01T00:00:00+00:00" := by decide
  rw [h] at h1
  have h2 : getGeneratedAt
      (analysis_to_dict fxEmptyAnalysis "2024-01-01T00:00:01+00:00") =
      some "2024-01-01T00:00:01+00:00" := by decide
  rw [h2] at h1
  exact absurd h1 (by decide)

/-- C2 amended: the document is determined by the analysis value except
for `disc.generated_at`, which embeds the current time: erasing that one
field makes the outputs of any two runs on the same analysis identical. -/
theorem c2_deterministic_apart_from_generated_at (a : DiscAnalysis)
    (t1 t2 : String) :
    scrubGeneratedAt (analysis_to_dict a t1) =
      scrubGeneratedAt (analysis_to_dict a t2) := rfl

/-- C7: a playlist that is not in the Play-All set and has at least 20
play items, total duration at most 300 s, average item duration at most
0.5 s and unique-clip ratio at least 0.8 is classified `digital_archive`;
at the boundary, 20 ultra-short items with ratio exactly 0.8 qualify,
while ratio 0.75 or only 19 items leave the archive shape (the concrete
playlists then classify as `bumper` by duration). -/
theorem c7_digital_archive_boundary :
    (∀ (playlists play_all : List Playlist) (pl : Playlist),
      pl ∈ playlists →
      pl.mpls ∉ play_all.map Playlist.mpls →
      20 ≤ pl.play_items.length →
      pl.duration_seconds ≤ 300 →
      qdiv pl.duration_seconds (natToQ pl.play_items.length) ≤ mkRat 1 2 →
      mkRat 4 5 ≤ qdiv (natToQ (pl.play_items.map PlayItem.clip_id).dedup.length)
        (natToQ pl.play_items.length) →
      (pl.mpls, "digital_archive") ∈ classify_playlists playlists play_all) ∧
    classify_playlists [fxArc20, fxArc075, fxArc19] [] =
      [("00005.mpls", "digital_archive"), ("00006.mpls", "bumper"),
       ("00007.mpls", "bumper")] ∧
    is_digital_archive_playlist fxArc20 = true ∧
    is_digital_archive_playlist fxArc075 = false ∧
    is_digital_archive_playlist fxArc19 = false := by
  refine ⟨?_, by decide, by decide, by decide, by decide⟩
  intro playlists play_all pl hmem hnpa h20 h300 havg hratio
  have hda : is_digital_archive_playlist pl = true := by
    simp only [is_digital_archive_playlist]
    rw [if_neg (Nat.not_lt.2 h20), if_neg (not_lt.2 h300), if_neg (not_lt.2 havg)]
    exact decide_eq_true hratio
  simp only [classify_playlists]
  refine List.mem_map.2 ⟨pl, hmem, ?_⟩
  rw [if_neg hnpa, if_pos hda]

/-- Witness for C7 at the exact-boundary playlist. -/
theorem c7_digital_archive_boundary_witness :
    (fxArc20.mpls, "digital_archive") ∈ classify_playlists [fxArc20] [] :=
  c7_digital_archive_boundary.1 [fxArc20] [] fxArc20 (by decide) (by decide)
    (by decide) (by decide) (by decide) (by decide)

/-- C9 counterexample: the archive item's clip id `a..b` contains the
substring `..`, yet planning succeeds — the glued output name
`00003-001-a..b.jpg` stays one path component, so the resolved path never
leaves the target directory and no PathTraversal error is produced. -/
theorem c9_dotdot_inside_component_not_rejected :
    (['.', '.'] <:+: "a..b".data) ∧
    get_digital_archive_dry_run (fxArchiveAnalysis "a..b") ["tmp", "out"]
      ["tmp", "s"] "ffmpeg" "jpg" = .ok
      [{ playlist := "00003.mpls"
         index := 1
         clip_id := "a..b"
         output := "/tmp/out/00003-001-a..b.jpg"
         command := ["ffmpeg", "-hide_banner", "-loglevel", "error", "-y",
           "-ss", "0.000", "-i", "/tmp/s/a..b.m2ts", "-frames:v", "1",
           "-q:v", "2", "/tmp/out/00003-001-a..b.jpg"] }] := by
  refine ⟨by decide, by decide⟩

/-- C9 amended: planning rejects an archive item if and only if its
canonicalized output path escapes the target directory: every accepted
path lies under the target directory, a clip id whose `..`s form
standalone path components (`x/../../y`) is rejected with a PathTraversal
error before any command is built, and a clip id merely containing `..`
inside one component is accepted. -/
theorem c9_traversal_error_iff_resolved_path_escapes :
    (∀ (out : List String) (item : ArchiveItem) (fmt : String)
      (res : List String),
      resolve_output_path out item fmt = .ok res → out.isPrefixOf res = true) ∧
    get_digital_archive_dry_run (fxArchiveAnalysis "x/../../y") ["tmp", "out"]
      ["tmp", "s"] "ffmpeg" "jpg" =
      .error (.valueErr "Output path escapes target directory: /tmp/y.jpg") := by
  refine ⟨?_, by decide⟩
  intro out item fmt res h
  simp only [resolve_output_path] at h
  split at h
  · injection h with h'
    subst h'
    assumption
  · exact absurd h (by simp)

/-- Witness for C9 applying the guard-soundness part at a concrete
accepted item. -/
theorem c9_traversal_error_iff_resolved_path_escapes_witness :
    ["tmp", "out"].isPrefixOf
      ["tmp", "out", "00003-001-a..b.jpg"] = true :=
  c9_traversal_error_iff_resolved_path_escapes.1 ["tmp", "out"]
    { playlist := "00003.mpls", index := 1, clip_id := "a..b", in_ms := 0,
      duration_ms := 1000 }
    "jpg" ["tmp", "out", "00003-001-a..b.jpg"] (by decide)

/-- A nonempty chapter decomposition passed the acceptance check: at
least two episodes, within one of the estimate. -/
theorem chapDecompose_count (mpls clip : String)
    (target_dur_ms min_ep_ms max_ep_ms : ℚ) (ch_times : List ℚ)
    (out_ms : ℚ) (est_count : ℤ) (eps : List Episode)
    (h : chapDecompose mpls clip target_dur_ms min_ep_ms max_ep_ms ch_times
      out_ms est_count = eps)
    (hne : eps ≠ []) :
    2 ≤ eps.length ∧ ((eps.length : ℤ) - est_count).natAbs ≤ 1 := by
  simp only [chapDecompose] at h
  split at h
  · split at h
    · subst h
      rename_i hcond
      exact ⟨hcond.2, hcond.1⟩
    · exact absurd h.symm hne
  · split at h
    · subst h
      rename_i hcond
      exact ⟨hcond.2, hcond.1⟩
    · exact absurd h.symm hne

/-- C5 amended: with estimate `round(total/25min)` and `target =
total/estimate`, the trailing chapters become a final episode iff their
duration is at least `0.6 * target` AND the greedy walk's last split was
not at the final chapter; any nonempty decomposition that is returned has
`|episode_count - estimate| <= 1` and at least two episodes.  On
`fxChapGood` the tail qualifies on both conditions and the final episode
runs to the playlist end. -/
theorem c5_chapter_split_acceptance_and_tail :
    (∀ (pl : Playlist) (eps : List Episode),
      episodes_from_chapters pl = .ok eps → eps ≠ [] →
      2 ≤ eps.length ∧
        ((eps.length : ℤ) -
          max 1 (pyRound (qdiv pl.duration_ms (natToQ (25 * 60 * 1000))))).natAbs ≤ 1) ∧
    episodes_from_chapters fxChapGood = .ok
      [{ episode := 1
         playlist := "00002.mpls"
         duration_ms := 1500000
         confidence := mkRat 3 5
         segments := [{ key := SKey.chap "00007" 0 1500000
                        clip_id := "00007"
                        in_ms := 0
                        out_ms := 1500000
                        duration_ms := 1500000
                        label := "BODY" }] },
       { episode := 2
         playlist := "00002.mpls"
         duration_ms := 1500000
         confidence := mkRat 3 5
         segments := [{ key := SKey.chap "00007" 1500000 3000000
                        clip_id := "00007"
                        in_ms := 1500000
                        out_ms := 3000000
                        duration_ms := 1500000
                        label := "BODY" }] }] ∧
    ticks_to_ms (fxMinTicks 50) = (3000000 : ℚ) := by
  refine ⟨?_, by decide, by decide⟩
  intro pl eps h hne
  simp only [episodes_from_chapters] at h
  split at h
  · injection h with h'
    exact absurd h'.symm hne
  · split at h
    · exact absurd h (by simp)
    · split at h
      · injection h with h'
        exact absurd h'.symm hne
      · injection h with h'
        exact chapDecompose_count _ _ _ _ _ _ _ _ eps h' hne

/-- Witness for C5 applying the acceptance property at `fxChapGood`. -/
theorem c5_chapter_split_acceptance_and_tail_witness :
    ∃ eps : List Episode, episodes_from_chapters fxChapGood = .ok eps ∧
      eps ≠ [] ∧ 2 ≤ eps.length := by
  have h : episodes_from_chapters fxChapGood =
      .ok (match episodes_from_chapters fxChapGood with
           | .ok eps => eps
           | .error _ => []) := by decide
  exact ⟨_, h, by decide,
    (c5_chapter_split_acceptance_and_tail.1 fxChapGood _ h (by decide)).1⟩

/-- One greedy step preserves the episode chain: episodes emitted so far
never overlap, and the last episode ends no later than the current block
start. -/
theorem chapSplitStep_inv (mpls clip : String) (t mn mx : ℚ)
    (ch : List ℚ) (st : ChapState) (i : ℕ)
    (h1 : List.Chain' (fun a b => epLastOut a ≤ epFirstIn b) st.1)
    (h2 : ∀ e ∈ st.1.getLast?, epLastOut e ≤ st.2.1) :
    List.Chain' (fun a b => epLastOut a ≤ epFirstIn b)
      (chapSplitStep mpls clip t mn mx ch st i).1 ∧
    ∀ e ∈ (chapSplitStep mpls clip t mn mx ch st i).1.getLast?,
      epLastOut e ≤ (chapSplitStep mpls clip t mn mx ch st i).2.1 := by
  simp only [chapSplitStep]
  split
  · split
    · split
      · constructor
        · refine List.Chain'.append h1 (List.chain'_singleton _) ?_
          intro x hx y hy
          simp only [List.head?_cons, Option.mem_def, Option.some.injEq] at hy
          subst hy
          simpa [epFirstIn] using h2 x hx
        · intro e he
          simp only [List.getLast?_concat, Option.mem_def, Option.some.injEq] at he
          subst he
          simp [epLastOut]
      · exact ⟨h1, h2⟩
    · split
      · constructor
        · refine List.Chain'.append h1 (List.chain'_singleton _) ?_
          intro x hx y hy
          simp only [List.head?_cons, Option.mem_def, Option.some.injEq] at hy
          subst hy
          simpa [epFirstIn] using h2 x hx
        · intro e he
          simp only [List.getLast?_concat, Option.mem_def, Option.some.injEq] at he
          subst he
          simp [epLastOut]
      · exact ⟨h1, h2⟩
  · exact ⟨h1, h2⟩

/-- The whole greedy walk preserves the chain invariant. -/
theorem chapWalk_inv (mpls clip : String) (t mn mx : ℚ) (ch : List ℚ) :
    ∀ (idxs : List ℕ) (st : ChapState),
    List.Chain' (fun a b => epLastOut a ≤ epFirstIn b) st.1 →
    (∀ e ∈ st.1.getLast?, epLastOut e ≤ st.2.1) →
    List.Chain' (fun a b => epLastOut a ≤ epFirstIn b)
      (idxs.foldl (chapSplitStep mpls clip t mn mx ch) st).1 ∧
    ∀ e ∈ (idxs.foldl (chapSplitStep mpls clip t mn mx ch) st).1.getLast?,
      epLastOut e ≤ (idxs.foldl (chapSplitStep mpls clip t mn mx ch) st).2.1
  | [], _, h1, h2 => ⟨h1, h2⟩
  | i :: rest, st, h1, h2 => by
    simp only [List.foldl_cons]
    have hstep := chapSplitStep_inv mpls clip t mn mx ch st i h1 h2
    exact chapWalk_inv mpls clip t mn mx ch rest _ hstep.1 hstep.2

/-- Any chapter decomposition (walk plus optional trailing episode, when
accepted) is chained: consecutive episodes never overlap. -/
theorem chapDecompose_chain (mpls clip : String)
    (target_dur_ms min_ep_ms max_ep_ms : ℚ) (ch_times : List ℚ)
    (out_ms : ℚ) (est_count : ℤ) :
    List.Chain' (fun a b => epLastOut a ≤ epFirstIn b)
      (chapDecompose mpls clip target_dur_ms min_ep_ms max_ep_ms ch_times
        out_ms est_count) := by
  have hw := chapWalk_inv mpls clip target_dur_ms min_ep_ms max_ep_ms ch_times
    (List.range' 1 (ch_times.length - 1)) ([], ch_times.getD 0 0, 0)
    List.chain'_nil (by simp)
  simp only [chapDecompose]
  split
  · split
    · refine List.Chain'.append hw.1 (List.chain'_singleton _) ?_
      intro x hx y hy
      simp only [List.head?_cons, Option.mem_def, Option.some.injEq] at hy
      subst hy
      simpa [epFirstIn] using hw.2 x hx
    · exact List.chain'_nil
  · split
    · exact hw.1
    · exact List.chain'_nil

/-- C6: in every chapter-split episode list the last segment's `out_ms` of
episode `i` is at most the first segment's `in_ms` of episode `i+1`
(adjacent episodes share the split chapter's timestamp, so they never
overlap). -/
theorem c6_chapter_split_episodes_never_overlap (pl : Playlist)
    (eps : List Episode) (h : episodes_from_chapters pl = .ok eps) :
    List.Chain' (fun a b => epLastOut a ≤ epFirstIn b) eps := by
  simp only [episodes_from_chapters] at h
  split at h
  · injection h with h'
    rw [← h']
    exact List.chain'_nil
  · split at h
    · exact absurd h (by simp)
    · split at h
      · injection h with h'
        rw [← h']
        exact List.chain'_nil
      · injection h with h'
        rw [← h']
        exact chapDecompose_chain _ _ _ _ _ _ _ _

/-- Witness for C6 at the concrete chapter-split playlist. -/
theorem c6_chapter_split_episodes_never_overlap_witness :
    ∃ eps : List Episode, episodes_from_chapters fxChapGood = .ok eps ∧
      List.Chain' (fun a b => epLastOut a ≤ epFirstIn b) eps := by
  have h : episodes_from_chapters fxChapGood =
      .ok (match episodes_from_chapters fxChapGood with
           | .ok eps => eps
           | .error _ => []) := by decide
  exact ⟨_, h, c6_chapter_split_episodes_never_overlap fxChapGood _ h⟩

/-- Successful `read_bytes` returns the next `n` bytes and advances the
cursor by `n`. -/
theorem readBytes_ok {n : ℕ} {r : Rd} {bs : List ℕ} {r' : Rd}
    (h : readBytes n r = (.ok bs, r')) :
    bs = (r.data.drop r.pos).take n ∧ r' = { data := r.data, pos := r.pos + n } := by
  simp only [readBytes, rdRequire] at h
  split at h
  · simp only [pbind] at h
    rw [Prod.mk.injEq] at h
    exact absurd h.1 (by simp)
  · simp only [pbind] at h
    rw [Prod.mk.injEq] at h
    obtain ⟨h1, h2⟩ := h
    injection h1 with h1
    exact ⟨h1.symm, h2.symm⟩

/-- Successful `skip` advances the cursor by `n`. -/
theorem rdSkip_ok {n : ℕ} {r : Rd} {u : Unit} {r' : Rd}
    (h : rdSkip n r = (.ok u, r')) :
    r' = { data := r.data, pos := r.pos + n } := by
  simp only [rdSkip, rdRequire] at h
  split at h
  · simp only [pbind] at h
    rw [Prod.mk.injEq] at h
    exact absurd h.1 (by simp)
  · simp only [pbind] at h
    rw [Prod.mk.injEq] at h
    exact h.2.symm

/-- Successful `u8` advances the cursor by 1. -/
theorem rdU8_ok {r : Rd} {v : ℕ} {r' : Rd} (h : rdU8 r = (.ok v, r')) :
    r' = { data := r.data, pos := r.pos + 1 } := by
  simp only [rdU8] at h
  cases hb : readBytes 1 r with
  | mk res rb =>
    rw [hb] at h
    cases res with
    | error e =>
      simp only [pbind] at h
      rw [Prod.mk.injEq] at h
      exact absurd h.1 (by simp)
    | ok bs =>
      simp only [pbind] at h
      rw [Prod.mk.injEq] at h
      rw [← h.2]
      exact (readBytes_ok hb).2

/-- Successful `u16` reads the big-endian value at the cursor and
advances by 2. -/
theorem rdU16_ok {r : Rd} {v : ℕ} {r' : Rd} (h : rdU16 r = (.ok v, r')) :
    v = be16At r.data r.pos ∧ r' = { data := r.data, pos := r.pos + 2 } := by
  simp only [rdU16] at h
  cases hb : readBytes 2 r with
  | mk res rb =>
    rw [hb] at h
    cases res with
    | error e =>
      simp only [pbind] at h
      rw [Prod.mk.injEq] at h
      exact absurd h.1 (by simp)
    | ok bs =>
      simp only [pbind] at h
      rw [Prod.mk.injEq] at h
      obtain ⟨h1, h2⟩ := h
      injection h1 with h1
      obtain ⟨hbs, hrb⟩ := readBytes_ok hb
      subst hbs
      exact ⟨h1.symm, h2 ▸ hrb⟩

/-- Successful `u32` reads the big-endian value at the cursor and
advances by 4. -/
theorem rdU32_ok {r : Rd} {v : ℕ} {r' : Rd} (h : rdU32 r = (.ok v, r')) :
    v = be32At r.data r.pos ∧ r' = { data := r.data, pos := r.pos + 4 } := by
  simp only [rdU32] at h
  cases hb : readBytes 4 r with
  | mk res rb =>
    rw [hb] at h
    cases res with
    | error e =>
      simp only [pbind] at h
      rw [Prod.mk.injEq] at h
      exact absurd h.1 (by simp)
    | ok bs =>
      simp only [pbind] at h
      rw [Prod.mk.injEq] at h
      obtain ⟨h1, h2⟩ := h
      injection h1 with h1
      obtain ⟨hbs, hrb⟩ := readBytes_ok hb
      subst hbs
      exact ⟨h1.symm, h2 ▸ hrb⟩

/-- The mark loop consumes 14 bytes per mark; mark `j` stores the raw
big-endian timestamp read at offset `14*j + 4` of its window and a
`duration_ms` equal to the raw 32-bit value at offset `14*j + 10` divided
by 45. -/
theorem parseMarksFrom_fields :
    ∀ (n i : ℕ) (r : Rd) (marks : List ChapterMark) (r' : Rd),
    parseMarksFrom i n r = (.ok marks, r') →
    marks.length = n ∧
    ∀ j, j < marks.length →
      (marks.getD j (fxMark 0 0)).timestamp = be32At r.data (r.pos + 14 * j + 4) ∧
      (marks.getD j (fxMark 0 0)).duration_ms =
        Rat.divInt (be32At r.data (r.pos + 14 * j + 10)) 45 ∧
      (marks.getD j (fxMark 0 0)).mark_id = i + j := by
  intro n
  induction n with
  | zero =>
    intro i r marks r' h
    simp only [parseMarksFrom] at h
    rw [Prod.mk.injEq] at h
    obtain ⟨h1, _⟩ := h
    injection h1 with h1
    refine ⟨by rw [← h1]; rfl, ?_⟩
    intro j hj
    rw [← h1] at hj
    exact absurd hj (by simp)
  | succ n ih =>
    intro i r marks r' h
    simp only [parseMarksFrom] at h
    cases hA : rdSkip 1 r with
    | mk resA rA =>
      rw [hA] at h
      cases resA with
      | error e =>
        simp only [pbind] at h
        rw [Prod.mk.injEq] at h
        exact absurd h.1 (by simp)
      | ok uA =>
        simp only [pbind] at h
        have eA := rdSkip_ok hA
        subst eA
        cases hB : rdU8 { data := r.data, pos := r.pos + 1 } with
        | mk resB rB =>
          rw [hB] at h
          cases resB with
          | error e =>
            simp only [pbind] at h
            rw [Prod.mk.injEq] at h
            exact absurd h.1 (by simp)
          | ok mark_type =>
            simp only [pbind] at h
            have eB := rdU8_ok hB
            subst eB
            cases hC : rdU16 { data := r.data, pos := r.pos + 1 + 1 } with
            | mk resC rC =>
              rw [hC] at h
              cases resC with
              | error e =>
                simp only [pbind] at h
                rw [Prod.mk.injEq] at h
                exact absurd h.1 (by simp)
              | ok ref_item =>
                simp only [pbind] at h
                have eC := (rdU16_ok hC).2
                subst eC
                cases hD : rdU32 { data := r.data, pos := r.pos + 1 + 1 + 2 } with
                | mk resD rD =>
                  rw [hD] at h
                  cases resD with
                  | error e =>
                    simp only [pbind] at h
                    rw [Prod.mk.injEq] at h
                    exact absurd h.1 (by simp)
                  | ok timestamp =>
                    simp only [pbind] at h
                    obtain ⟨vD, eD⟩ := rdU32_ok hD
                    subst eD
                    cases hE : rdU16 { data := r.data, pos := r.pos + 1 + 1 + 2 + 4 } with
                    | mk resE rE =>
                      rw [hE] at h
                      cases resE with
                      | error e =>
                        simp only [pbind] at h
                        rw [Prod.mk.injEq] at h
                        exact absurd h.1 (by simp)
                      | ok entry_es_pid =>
                        simp only [pbind] at h
                        have eE := (rdU16_ok hE).2
                        subst eE
                        cases hF : rdU32 { data := r.data, pos := r.pos + 1 + 1 + 2 + 4 + 2 } with
                        | mk resF rF =>
                          rw [hF] at h
                          cases resF with
                          | error e =>
                            simp only [pbind] at h
                            rw [Prod.mk.injEq] at h
                            exact absurd h.1 (by simp)
                          | ok duration =>
                            simp only [pbind] at h
                            obtain ⟨vF, eF⟩ := rdU32_ok hF
                            subst eF
                            cases hG : parseMarksFrom (i + 1) n
                                { data := r.data, pos := r.pos + 1 + 1 + 2 + 4 + 2 + 4 } with
                            | mk resG rG =>
                              rw [hG] at h
                              cases resG with
                              | error e =>
                                simp only [pbind] at h
                                rw [Prod.mk.injEq] at h
                                exact absurd h.1 (by simp)
                              | ok rest =>
                                simp only [pbind] at h
                                rw [Prod.mk.injEq] at h
                                obtain ⟨h1, _⟩ := h
                                injection h1 with h1
                                obtain ⟨hlen, hfields⟩ := ih (i + 1) _ rest rG hG
                                subst h1
                                constructor
                                · simp [hlen]
                                · intro j hj
                                  cases j with
                                  | zero =>
                                    refine ⟨?_, ?_, ?_⟩
                                    · simp only [List.getD_cons_zero]
                                      rw [vD]
                                    · simp only [List.getD_cons_zero]
                                      rw [vF]
                                    · simp
                                  | succ j' =>
                                    simp only [List.length_cons] at hj
                                    have hj' : j' < rest.length := by omega
                                    obtain ⟨ht, hd, hm⟩ := hfields j' hj'
                                    dsimp only at ht hd hm
                                    refine ⟨?_, ?_, ?_⟩
                                    · simp only [List.getD_cons_succ]
                                      rw [ht]
                                      congr 1
                                      omega
                                    · simp only [List.getD_cons_succ]
                                      have harg : r.pos + 1 + 1 + 2 + 4 + 2 + 4 + 14 * j' + 10 =
                                          r.pos + 14 * (j' + 1) + 10 := by omega
                                      rw [hd, harg]
                                    · simp only [List.getD_cons_succ]
                                      rw [hm]
                                      omega

/-- C10: for every PlayListMark entry parsed from an MPLS mark section,
`duration_ms` equals the raw 32-bit duration field divided by 45, while
`timestamp` is kept as the raw 45 kHz tick value — the unit asymmetry is
retained exactly (mark `j` occupies bytes `6 + 14*j ..` of the section,
with the timestamp at offset 4 and the duration at offset 10 of the
entry). -/
theorem c10_mark_duration_divided_by_45_timestamp_raw
    (r : Rd) (marks : List ChapterMark) (r' : Rd)
    (h : parse_marks r = (.ok marks, r')) :
    marks.length = be16At r.data (r.pos + 4) ∧
    ∀ j, j < marks.length →
      (marks.getD j (fxMark 0 0)).timestamp =
        be32At r.data (r.pos + 6 + 14 * j + 4) ∧
      (marks.getD j (fxMark 0 0)).duration_ms =
        Rat.divInt (be32At r.data (r.pos + 6 + 14 * j + 10)) 45 := by
  simp only [parse_marks] at h
  cases hA : rdSkip 4 r with
  | mk resA rA =>
    rw [hA] at h
    cases resA with
    | error e =>
      simp only [pbind] at h
      rw [Prod.mk.injEq] at h
      exact absurd h.1 (by simp)
    | ok uA =>
      simp only [pbind] at h
      have eA := rdSkip_ok hA
      subst eA
      cases hB : rdU16 { data := r.data, pos := r.pos + 4 } with
      | mk resB rB =>
        rw [hB] at h
        cases resB with
        | error e =>
          simp only [pbind] at h
          rw [Prod.mk.injEq] at h
          exact absurd h.1 (by simp)
        | ok num_marks =>
          simp only [pbind] at h
          obtain ⟨vB, eB⟩ := rdU16_ok hB
          subst eB
          obtain ⟨hlen, hfields⟩ := parseMarksFrom_fields num_marks 0 _ marks r' h
          dsimp only at vB
          constructor
          · rw [hlen, vB]
          · intro j hj
            obtain ⟨ht, hd, _⟩ := hfields j hj
            dsimp only at ht hd
            refine ⟨?_, ?_⟩
            · have harg : r.pos + 4 + 2 + 14 * j + 4 = r.pos + 6 + 14 * j + 4 := by omega
              rw [ht, harg]
            · have harg : r.pos + 4 + 2 + 14 * j + 10 = r.pos + 6 + 14 * j + 10 := by omega
              rw [hd, harg]

/-- Witness for C10 at the fixture mark section: one mark with raw
timestamp 900 and duration 900 / 45 ms. -/
theorem c10_mark_duration_divided_by_45_timestamp_raw_witness :
    0 < fxMplsParsed.chapters.length ∧
    ((fxMplsParsed.chapters.getD 0 (fxMark 0 0)).timestamp =
        be32At (fxMplsFile [48, 49, 48, 48]) (30 + 6 + 14 * 0 + 4) ∧
      (fxMplsParsed.chapters.getD 0 (fxMark 0 0)).duration_ms =
        Rat.divInt (be32At (fxMplsFile [48, 49, 48, 48]) (30 + 6 + 14 * 0 + 10)) 45) :=
  ⟨by decide,
    (c10_mark_duration_divided_by_45_timestamp_raw
        { data := fxMplsFile [48, 49, 48, 48], pos := 30 }
        fxMplsParsed.chapters
        { data := fxMplsFile [48, 49, 48, 48], pos := 50 }
        (by rfl)).2 0 (by decide)⟩

/-- Successful-read unfolding step for `pbind`. -/
theorem pbind_ok {α β : Type} (v : α) (r : Rd) (f : α → Rd → PR β) :
    pbind ((.ok v), r) f = f v r := rfl

set_option maxHeartbeats 4000000 in
/-- C3 counterexample: version `9999` (bytes 57 57 57 57) is outside the
accepted set, yet both the MPLS and the CLPI parser succeed on files
carrying it — no FormatVersion error is ever raised. -/
theorem c3_unsupported_version_accepted_counterexample :
    parse_mpls_bytes (fxMplsFile [57, 57, 57, 57]) "x.mpls" = .ok fxMplsParsed ∧
    parse_clpi_bytes (fxClpiFile [57, 57, 57, 57]) "00001" = .ok fxClpiParsed ∧
    (rdString 4 { data := fxMplsFile [57, 57, 57, 57], pos := 4 }).1 = .ok "9999" ∧
    "9999" ∉ ["0100", "0200"] :=
  ⟨rfl, rfl, rfl, by decide⟩

set_option maxHeartbeats 4000000 in
/-- C3 (amended): both parsers read the 4-byte version field and discard
it without any comparison — for every ASCII version value whatsoever the
parse succeeds, instead of failing fatally on versions outside
`{"0100", "0200"}`. -/
theorem c3_version_read_but_never_validated (v1 v2 v3 v4 : ℕ)
    (h1 : v1 < 128) (h2 : v2 < 128) (h3 : v3 < 128) (h4 : v4 < 128) :
    parse_mpls_bytes (fxMplsFile [v1, v2, v3, v4]) "x.mpls" = .ok fxMplsParsed ∧
    parse_clpi_bytes (fxClpiFile [v1, v2, v3, v4]) "00001" = .ok fxClpiParsed := by
  constructor
  · have hm : rdString 4 { data := fxMplsFile [v1, v2, v3, v4], pos := 0 } =
        (.ok "MPLS", { data := fxMplsFile [v1, v2, v3, v4], pos := 4 }) := rfl
    have hb : readBytes 4 { data := fxMplsFile [v1, v2, v3, v4], pos := 4 } =
        (.ok [v1, v2, v3, v4], { data := fxMplsFile [v1, v2, v3, v4], pos := 8 }) := rfl
    have hv : rdString 4 { data := fxMplsFile [v1, v2, v3, v4], pos := 4 } =
        (.ok (String.mk (([v1, v2, v3, v4].filter (fun b => b ≠ 0)).map Char.ofNat)),
          { data := fxMplsFile [v1, v2, v3, v4], pos := 8 }) := by
      simp only [rdString, hb, pbind]
      rw [if_pos (by simp [h1, h2, h3, h4])]
    unfold parse_mpls_bytes parse_mpls_reader
    rw [hm]
    simp only [pbind_ok]
    rw [if_neg (by decide)]
    rw [hv]
    simp only [pbind_ok]
    rfl
  · have hm : rdString 4 { data := fxClpiFile [v1, v2, v3, v4], pos := 0 } =
        (.ok "HDMV", { data := fxClpiFile [v1, v2, v3, v4], pos := 4 }) := rfl
    have hb : readBytes 4 { data := fxClpiFile [v1, v2, v3, v4], pos := 4 } =
        (.ok [v1, v2, v3, v4], { data := fxClpiFile [v1, v2, v3, v4], pos := 8 }) := rfl
    have hv : rdString 4 { data := fxClpiFile [v1, v2, v3, v4], pos := 4 } =
        (.ok (String.mk (([v1, v2, v3, v4].filter (fun b => b ≠ 0)).map Char.ofNat)),
          { data := fxClpiFile [v1, v2, v3, v4], pos := 8 }) := by
      simp only [rdString, hb, pbind]
      rw [if_pos (by simp [h1, h2, h3, h4])]
    unfold parse_clpi_bytes parse_clpi_reader
    rw [hm]
    simp only [pbind_ok]
    rw [if_neg (by decide)]
    rw [hv]
    simp only [pbind_ok]
    rfl

/-- Witness for the amended C3 at the unsupported version `9999`. -/
theorem c3_version_read_but_never_validated_witness :
    parse_mpls_bytes (fxMplsFile [57, 57, 57, 57]) "x.mpls" = .ok fxMplsParsed ∧
    parse_clpi_bytes (fxClpiFile [57, 57, 57, 57]) "00001" = .ok fxClpiParsed :=
  c3_version_read_but_never_validated 57 57 57 57
    (by decide) (by decide) (by decide) (by decide)

theorem sigGroups_append (pls : List Playlist) (x : Playlist) (q : ℚ) :
    sigGroups (pls ++ [x]) q =
      (if ((sigGroups pls q).find? (fun g => g.1 = x.signature_loose q)).isSome then
        (sigGroups pls q).map
          (fun g => if g.1 = x.signature_loose q then (g.1, g.2 ++ [x]) else g)
      else sigGroups pls q ++ [(x.signature_loose q, [x])]) := by
  simp only [sigGroups, List.foldl_append, List.foldl_cons, List.foldl_nil]

theorem sigGroups_char (q : ℚ) (pls : List Playlist) :
    (∀ e ∈ sigGroups pls q,
        e.2 = pls.filter (fun pl => pl.signature_loose q = e.1)) ∧
    (∀ pl ∈ pls, ∃ e ∈ sigGroups pls q, e.1 = pl.signature_loose q) := by
  induction pls using List.reverseRecOn with
  | nil => simp [sigGroups]
  | append_singleton l x ih =>
    obtain ⟨iha, ihb⟩ := ih
    rw [sigGroups_append]
    by_cases hfind :
        ((sigGroups l q).find? (fun g => g.1 = x.signature_loose q)).isSome
    · rw [if_pos hfind]
      constructor
      · intro e he
        obtain ⟨e0, he0, hfe⟩ := List.mem_map.mp he
        by_cases hk : e0.1 = x.signature_loose q
        · rw [if_pos hk] at hfe
          subst hfe
          simp only [List.filter_append]
          rw [← iha e0 he0]
          simp [hk.symm]
        · rw [if_neg hk] at hfe
          subst hfe
          simp only [List.filter_append]
          rw [← iha e0 he0]
          have hne : ¬ x.signature_loose q = e0.1 := fun h => hk h.symm
          have : (List.filter (fun pl => decide (pl.signature_loose q = e0.1)) [x]) = [] := by
            simp [hne]
          rw [this, List.append_nil]
      · intro pl hpl
        rcases List.mem_append.mp hpl with hl | hx
        · obtain ⟨e0, he0, hke⟩ := ihb pl hl
          refine ⟨if e0.1 = x.signature_loose q then (e0.1, e0.2 ++ [x]) else e0,
            List.mem_map_of_mem _ he0, ?_⟩
          by_cases hk : e0.1 = x.signature_loose q
          · rw [if_pos hk]; exact hke
          · rw [if_neg hk]; exact hke
        · have hx' : pl = x := by simpa using hx
          subst hx'
          obtain ⟨e0, hfq⟩ := Option.isSome_iff_exists.mp hfind
          have he0 : e0 ∈ sigGroups l q := List.mem_of_find?_eq_some hfq
          have hke : e0.1 = pl.signature_loose q := by
            have := List.find?_some hfq
            simpa using this
          refine ⟨(e0.1, e0.2 ++ [pl]), ?_, hke⟩
          have : (if e0.1 = pl.signature_loose q then (e0.1, e0.2 ++ [pl]) else e0) =
              (e0.1, e0.2 ++ [pl]) := by rw [if_pos hke]
          rw [← this]
          exact List.mem_map_of_mem _ he0
    · rw [if_neg hfind]
      have hnone : (sigGroups l q).find? (fun g => g.1 = x.signature_loose q) = none :=
        Option.not_isSome_iff_eq_none.mp hfind
      have hnokey : ∀ e ∈ sigGroups l q, e.1 ≠ x.signature_loose q := by
        intro e he
        have := List.find?_eq_none.mp hnone e he
        simpa using this
      constructor
      · intro e he
        rcases List.mem_append.mp he with hin | hnew
        · rw [iha e hin]
          simp only [List.filter_append]
          have hne : ¬ x.signature_loose q = e.1 := fun h => hnokey e hin h.symm
          have : (List.filter (fun pl => decide (pl.signature_loose q = e.1)) [x]) = [] := by
            simp [hne]
          rw [this, List.append_nil]
        · have he' : e = (x.signature_loose q, [x]) := by simpa using hnew
          subst he'
          simp only [List.filter_append]
          have h1 : (List.filter (fun pl => decide (pl.signature_loose q = x.signature_loose q)) [x]) = [x] := by
            simp
          have h2 : (List.filter (fun pl => decide (pl.signature_loose q = x.signature_loose q)) l) = [] := by
            rw [List.filter_eq_nil_iff]
            intro pl hpl
            simp only [decide_eq_true_eq]
            intro hs
            obtain ⟨e0, he0, hke⟩ := ihb pl hpl
            exact hnokey e0 he0 (hke.trans hs)
          rw [h1, h2, List.nil_append]
      · intro pl hpl
        rcases List.mem_append.mp hpl with hl | hx
        · obtain ⟨e0, he0, hke⟩ := ihb pl hl
          exact ⟨e0, List.mem_append_left _ he0, hke⟩
        · have hx' : pl = x := by simpa using hx
          subst hx'
          exact ⟨(pl.signature_loose q, [pl]), List.mem_append_right _ (by simp), rfl⟩

theorem find_duplicates_char (pls : List Playlist) (g : List Playlist)
    (hg : g ∈ find_duplicates pls 250) :
    ∃ s, g = pls.filter (fun pl => pl.signature_loose 250 = s) ∧
      2 ≤ g.length ∧ ∀ pl ∈ g, pl.signature_loose 250 = s := by
  simp only [find_duplicates, List.mem_filterMap] at hg
  obtain ⟨e, he, hfe⟩ := hg
  by_cases hlen : e.2.length ≥ 2
  · rw [if_pos hlen] at hfe
    injection hfe with hfe
    subst hfe
    refine ⟨e.1, (sigGroups_char 250 pls).1 e he, hlen, ?_⟩
    intro pl hpl
    rw [(sigGroups_char 250 pls).1 e he] at hpl
    simpa using (List.mem_filter.mp hpl).2
  · rw [if_neg hlen] at hfe
    exact absurd hfe (by simp)

theorem dedupStep_mono (dg : List (List Playlist))
    (clips : List (String × ClipInfo))
    (st : List (List SKey) × List Playlist) (x : Playlist) :
    ∀ pl ∈ st.2, pl ∈ (dedupStep dg clips st x).2 := by
  intro pl hpl
  simp only [dedupStep]
  split
  · split
    · split
      · exact hpl
      · exact List.mem_append_left _ hpl
    · exact hpl
  · exact List.mem_append_left _ hpl

theorem dedupStep_eq_of_seen (dg : List (List Playlist))
    (clips : List (String × ClipInfo))
    (st : List (List SKey) × List Playlist) (x : Playlist)
    (h : x.signature_loose 250 ∈ st.1) :
    dedupStep dg clips st x =
      match dg.find? (fun g => x ∈ g) with
      | some g =>
        if pick_representative g clips ∈ st.2 then st
        else (st.1, st.2 ++ [pick_representative g clips])
      | none => st := by
  simp only [dedupStep]
  rw [if_pos h]

theorem dedupStep_eq_of_unseen (dg : List (List Playlist))
    (clips : List (String × ClipInfo))
    (st : List (List SKey) × List Playlist) (x : Playlist)
    (h : x.signature_loose 250 ∉ st.1) :
    dedupStep dg clips st x =
      (st.1 ++ [x.signature_loose 250], st.2 ++ [x]) := by
  simp only [dedupStep]
  rw [if_neg h]

theorem dedupFold_inv (playlists : List Playlist)
    (clips : List (String × ClipInfo)) :
    ∀ (rest P : List Playlist) (st : List (List SKey) × List Playlist),
    playlists = P ++ rest →
    (∀ s, s ∈ st.1 ↔ ∃ pl ∈ P, pl.signature_loose 250 = s) →
    (∀ s, P.filter (fun pl => pl.signature_loose 250 = s) ≠ [] →
        (P.filter (fun pl => pl.signature_loose 250 = s)).getD 0
          { mpls := "", play_items := [] } ∈ st.2) →
    (∀ s, 2 ≤ (P.filter (fun pl => pl.signature_loose 250 = s)).length →
        pick_representative
          (playlists.filter (fun pl => pl.signature_loose 250 = s)) clips ∈ st.2) →
    ((∀ s, playlists.filter (fun pl => pl.signature_loose 250 = s) ≠ [] →
        (playlists.filter (fun pl => pl.signature_loose 250 = s)).getD 0
          { mpls := "", play_items := [] } ∈
          (rest.foldl (dedupStep (find_duplicates playlists 250) clips) st).2) ∧
     (∀ s, 2 ≤ (playlists.filter (fun pl => pl.signature_loose 250 = s)).length →
        pick_representative
          (playlists.filter (fun pl => pl.signature_loose 250 = s)) clips ∈
          (rest.foldl (dedupStep (find_duplicates playlists 250) clips) st).2)) := by
  intro rest
  induction rest with
  | nil =>
    intro P st hP hi hii hiii
    rw [List.append_nil] at hP
    subst hP
    simp only [List.foldl_nil]
    exact ⟨hii, hiii⟩
  | cons x rest ih =>
    intro P st hP hi hii hiii
    simp only [List.foldl_cons]
    apply ih (P ++ [x]) (dedupStep (find_duplicates playlists 250) clips st x)
    · rw [hP]; simp
    · -- seen-signature set tracks the processed prefix
      intro s
      by_cases hseen : x.signature_loose 250 ∈ st.1
      · have hfst : (dedupStep (find_duplicates playlists 250) clips st x).1 = st.1 := by
          rw [dedupStep_eq_of_seen _ _ _ _ hseen]
          cases (find_duplicates playlists 250).find? (fun g => x ∈ g) with
          | none => rfl
          | some g =>
            dsimp only
            by_cases hr : pick_representative g clips ∈ st.2
            · rw [if_pos hr]
            · rw [if_neg hr]
        rw [hfst, hi s]
        constructor
        · rintro ⟨pl, hpl, hs⟩
          exact ⟨pl, List.mem_append_left _ hpl, hs⟩
        · rintro ⟨pl, hpl, hs⟩
          rcases List.mem_append.mp hpl with h | h
          · exact ⟨pl, h, hs⟩
          · have hx : pl = x := by simpa using h
            subst hx
            obtain ⟨pl', hp', hs'⟩ := (hi (pl.signature_loose 250)).mp hseen
            exact ⟨pl', hp', hs'.trans hs⟩
      · rw [dedupStep_eq_of_unseen _ _ _ _ hseen]
        simp only [List.mem_append, List.mem_singleton]
        constructor
        · intro h
          rcases h with h | h
          · obtain ⟨pl, hpl, hs⟩ := (hi s).mp h
            exact ⟨pl, Or.inl hpl, hs⟩
          · exact ⟨x, Or.inr rfl, h.symm⟩
        · rintro ⟨pl, hpl, hs⟩
          rcases hpl with h | h
          · exact Or.inl ((hi s).mpr ⟨pl, h, hs⟩)
          · subst h
            exact Or.inr hs.symm
    · -- first occurrence of each signature class is retained
      intro s hne
      rw [List.filter_append] at hne ⊢
      by_cases hxs : x.signature_loose 250 = s
      · have hfx : List.filter (fun pl => decide (pl.signature_loose 250 = s)) [x] = [x] := by
          simp [hxs]
        rw [hfx] at hne ⊢
        by_cases hPf : List.filter (fun pl => decide (pl.signature_loose 250 = s)) P = []
        · rw [hPf, List.nil_append]
          have hunseen : x.signature_loose 250 ∉ st.1 := by
            rw [hi]
            rintro ⟨pl, hpl, hs⟩
            have : pl ∈ List.filter (fun pl => decide (pl.signature_loose 250 = s)) P :=
              List.mem_filter.mpr ⟨hpl, by simp [hs.trans hxs]⟩
            rw [hPf] at this
            simp at this
          rw [dedupStep_eq_of_unseen _ _ _ _ hunseen]
          simp
        · have hlt : 0 < (List.filter (fun pl => decide (pl.signature_loose 250 = s)) P).length :=
            List.length_pos.mpr hPf
          rw [List.getD_append _ _ _ _ hlt]
          exact dedupStep_mono _ _ _ _ _ (hii s hPf)
      · have hfx : List.filter (fun pl => decide (pl.signature_loose 250 = s)) [x] = [] := by
          simp [hxs]
        rw [hfx, List.append_nil] at hne ⊢
        exact dedupStep_mono _ _ _ _ _ (hii s hne)
    · -- the representative of every class seen twice is retained
      intro s hlen2
      rw [List.filter_append] at hlen2
      by_cases hxs : x.signature_loose 250 = s
      · have hfx : List.filter (fun pl => decide (pl.signature_loose 250 = s)) [x] = [x] := by
          simp [hxs]
        rw [hfx, List.length_append, List.length_singleton] at hlen2
        by_cases hP2 : 2 ≤ (List.filter (fun pl => decide (pl.signature_loose 250 = s)) P).length
        · exact dedupStep_mono _ _ _ _ _ (hiii s hP2)
        · have hP1 : 1 ≤ (List.filter (fun pl => decide (pl.signature_loose 250 = s)) P).length := by
            omega
          obtain ⟨pl0, hpl0⟩ := List.exists_mem_of_length_pos hP1
          have hpl0P : pl0 ∈ P := (List.mem_filter.mp hpl0).1
          have hpl0s : pl0.signature_loose 250 = s := by
            simpa using (List.mem_filter.mp hpl0).2
          have hseen : x.signature_loose 250 ∈ st.1 :=
            (hi _).mpr ⟨pl0, hpl0P, hpl0s.trans hxs.symm⟩
          rw [dedupStep_eq_of_seen _ _ _ _ hseen]
          have hxpl : x ∈ playlists := by rw [hP]; simp
          have hxf : x ∈ playlists.filter (fun pl => decide (pl.signature_loose 250 = s)) :=
            List.mem_filter.mpr ⟨hxpl, by simp [hxs]⟩
          have hfull2 :
              2 ≤ (playlists.filter (fun pl => decide (pl.signature_loose 250 = s))).length := by
            rw [hP, show P ++ x :: rest = (P ++ [x]) ++ rest by simp,
              List.filter_append, List.filter_append, hfx, List.length_append,
              List.length_append, List.length_singleton]
            omega
          have hgrp :
              playlists.filter (fun pl => decide (pl.signature_loose 250 = s)) ∈
                find_duplicates playlists 250 := by
            simp only [find_duplicates, List.mem_filterMap]
            obtain ⟨e, he, hke⟩ := (sigGroups_char 250 playlists).2 x hxpl
            have he2 : e.2 = playlists.filter (fun pl => decide (pl.signature_loose 250 = s)) := by
              rw [(sigGroups_char 250 playlists).1 e he, hke, hxs]
            refine ⟨e, he, ?_⟩
            rw [he2, if_pos hfull2]
          cases hfq : (find_duplicates playlists 250).find? (fun g => x ∈ g) with
          | none =>
            exfalso
            have := List.find?_eq_none.mp hfq _ hgrp
            simp only [decide_eq_true_eq] at this
            exact this hxf
          | some g1 =>
            have hg1mem := List.mem_of_find?_eq_some hfq
            have hxg1 : x ∈ g1 := by
              have := List.find?_some hfq
              simpa using this
            have hg1 : g1 = playlists.filter (fun pl => decide (pl.signature_loose 250 = s)) := by
              obtain ⟨s1, hf1, _, hsig1⟩ := find_duplicates_char playlists g1 hg1mem
              have hs1 : s1 = s := ((hsig1 x hxg1).symm.trans hxs)
              rw [hf1, hs1]
            dsimp only
            rw [hg1]
            by_cases hr :
                pick_representative
                  (playlists.filter (fun pl => decide (pl.signature_loose 250 = s))) clips ∈ st.2
            · rw [if_pos hr]
              exact hr
            · rw [if_neg hr]
              simp
      · have hfx : List.filter (fun pl => decide (pl.signature_loose 250 = s)) [x] = [] := by
          simp [hxs]
        rw [hfx, List.length_append] at hlen2
        simp only [List.length_nil, Nat.add_zero] at hlen2
        exact dedupStep_mono _ _ _ _ _ (hiii s hlen2)

/-- C4 (amended): for every duplicate cluster, the deduplicated working
set retains the cluster's first-encountered playlist AND its
representative — so a cluster whose representative differs from its
first member contributes two retained playlists, not exactly one. -/
theorem c4_working_set_keeps_first_seen_and_representative
    (playlists : List Playlist) (clips : List (String × ClipInfo))
    (group : List Playlist) (hg : group ∈ find_duplicates playlists 250) :
    group.getD 0 { mpls := "", play_items := [] } ∈ dedupWorkingSet playlists clips ∧
    pick_representative group clips ∈ dedupWorkingSet playlists clips := by
  obtain ⟨s, hgf, hlen, _⟩ := find_duplicates_char playlists group hg
  obtain ⟨hfirst, hrep⟩ := dedupFold_inv playlists clips playlists [] ([], [])
    (by simp) (by intro s; simp) (by intro s h; simp at h) (by intro s h; simp at h)
  have hws : dedupWorkingSet playlists clips =
      (playlists.foldl (dedupStep (find_duplicates playlists 250) clips) ([], [])).2 := rfl
  constructor
  · rw [hws, hgf]
    exact hfirst s (by
      rw [← hgf]
      intro hnil
      rw [hnil] at hlen
      simp at hlen)
  · rw [hws, hgf]
    exact hrep s (by rw [← hgf]; exact hlen)

/-- Witness for the amended C4 at the duplicate-pair fixture. -/
theorem c4_working_set_keeps_first_seen_and_representative_witness :
    [fxDupA, fxDupB] ∈ find_duplicates [fxDupA, fxDupB] 250 ∧
    ([fxDupA, fxDupB].getD 0 { mpls := "", play_items := [] } ∈
        dedupWorkingSet [fxDupA, fxDupB] [] ∧
      pick_representative [fxDupA, fxDupB] [] ∈ dedupWorkingSet [fxDupA, fxDupB] []) :=
  ⟨by decide,
    c4_working_set_keeps_first_seen_and_representative [fxDupA, fxDupB] []
      [fxDupA, fxDupB] (by decide)⟩
